import Mathlib

/-!
# Verification of the drug-repurposing pipeline core

Shallow embedding of the candidate-generation, scoring and safety-filtering
pipeline (`backend/pipeline/scorer.py`, `backend/pipeline/drug_filter.py`,
`backend/pipeline/data_fetcher.py`).  Numeric scores are modelled as exact
rationals (`ℚ`); Python's `round(x, 4)` is modelled as exact half-to-even
rounding at four decimals.  Python strings are modelled as Lean `String`s
(all data in the static tables is ASCII); Python `str.lower`, `str.strip`,
`str.startswith` and the substring test `in` are given explicit executable
models below.  The drug list iterated by the scorer and the Layer-2 label
environment of the safety filter are passed as explicit parameters.
-/

namespace DrugProj

/-- Python `str.lower()` restricted to ASCII (all table data is ASCII). -/
def pyLower (s : String) : String :=
  ⟨s.data.map Char.toLower⟩

/-- Whitespace characters stripped by Python `str.strip()` (ASCII subset). -/
def pySpace (c : Char) : Bool :=
  c == ' ' || c == '\t' || c == '\n' || c == '\r' || c == '\x0b' || c == '\x0c'

/-- Python `str.strip()`: drop whitespace from both ends. -/
def pyStrip (s : String) : String :=
  ⟨(((s.data.dropWhile pySpace).reverse.dropWhile pySpace).reverse)⟩

/-- `chPre pre l`: the character list `l` starts with `pre`. -/
def chPre : List Char → List Char → Bool
  | [], _ => true
  | _ :: _, [] => false
  | a :: as, b :: bs => a == b && chPre as bs

/-- `chSub needle hay`: `needle` occurs contiguously inside `hay`
(Python's `needle in hay` for strings). -/
def chSub : List Char → List Char → Bool
  | n, [] => n.isEmpty
  | n, c :: t => chPre n (c :: t) || chSub n t

/-- Python `needle in hay` on strings. -/
def strIn (needle hay : String) : Bool :=
  chSub needle.data hay.data

/-- Python `s.startswith(pre)`. -/
def strStarts (s pre : String) : Bool :=
  chPre pre.data s.data

/-- First-match association-list lookup, modelling lookup in a Python dict
whose construction had no duplicate keys. -/
def alookup {α : Type} (m : List (String × α)) (k : String) : Option α :=
  (m.find? (fun p => p.1 == k)).map (·.2)

/-- Lookup in a Python dict built by a comprehension that may have duplicate
keys: the last binding wins. -/
def dlookup {α : Type} (m : List (String × α)) (k : String) : Option α :=
  (m.reverse.find? (fun p => p.1 == k)).map (·.2)

/-- Python `round` to an integer: exact half-to-even (banker's) rounding,
the idealisation of `round` on exact decimal values. -/
def pyRoundInt (x : ℚ) : ℤ :=
  let f := ⌊x⌋
  let r := x - f
  if r < 1/2 then f
  else if 1/2 < r then f + 1
  else if f % 2 = 0 then f else f + 1

/-- Python `round(x, 4)`. -/
def pyRound4 (x : ℚ) : ℚ :=
  (pyRoundInt (x * 10000) : ℚ) / 10000

end DrugProj

namespace DrugProj

/-- The static curated gene → pathways table of
`RareDiseaseDataFetcher._map_genes_to_pathways` (`data_fetcher.py`). -/
def pathway_map : List (String × List String) := [
  ("EGFR", ["EGFR signaling", "MAPK signaling", "PI3K-Akt signaling"]),
  ("KRAS", ["RAS signaling", "MAPK signaling", "PI3K-Akt signaling"]),
  ("PIK3CA", ["PI3K-Akt signaling", "mTOR signaling"]),
  ("PTEN", ["PI3K-Akt signaling", "Cell growth regulation"]),
  ("MTOR", ["mTOR signaling", "Autophagy", "Protein synthesis"]),
  ("TP53", ["p53 signaling", "Apoptosis", "DNA damage response", "Cell cycle"]),
  ("AKT1", ["PI3K-Akt signaling", "Cell survival"]),
  ("TNF", ["TNF signaling", "NF-κB signaling", "Inflammatory response", "Cytokine signaling"]),
  ("IL6", ["JAK-STAT signaling", "Cytokine signaling", "Acute phase response"]),
  ("IL1B", ["Inflammatory response", "Cytokine signaling"]),
  ("NFKB1", ["NF-κB signaling", "Inflammatory response"]),
  ("STAT3", ["JAK-STAT signaling", "Cytokine signaling"]),
  ("PPARG", ["Lipid metabolism", "Adipogenesis", "Insulin sensitivity"]),
  ("INSR", ["Insulin signaling", "Glucose metabolism"]),
  ("PRKAA1", ["AMPK signaling", "Energy metabolism"]),
  ("PRKAA2", ["AMPK signaling", "Autophagy"]),
  ("GBA", ["Lysosomal function", "Sphingolipid metabolism", "Autophagy"]),
  ("GAA", ["Glycogen metabolism", "Lysosomal storage"]),
  ("HEXA", ["Sphingolipid metabolism", "GM2 ganglioside degradation"]),
  ("HEXB", ["Sphingolipid metabolism", "Lysosomal storage"]),
  ("NPC1", ["Cholesterol trafficking", "Lysosomal function"]),
  ("NPC2", ["Cholesterol metabolism", "Lipid transport"]),
  ("LAMP1", ["Lysosomal function", "Autophagy"]),
  ("LAMP2", ["Autophagy", "Lysosomal membrane"]),
  ("ATP7B", ["Copper metabolism", "Metal ion homeostasis"]),
  ("SNCA", ["Alpha-synuclein aggregation", "Dopamine metabolism"]),
  ("LRRK2", ["Autophagy", "Mitochondrial function", "Vesicle trafficking"]),
  ("PRKN", ["Mitophagy", "Ubiquitin-proteasome system"]),
  ("PINK1", ["Mitophagy", "Mitochondrial quality control"]),
  ("DJ1", ["Oxidative stress response", "Mitochondrial function"]),
  ("HTT", ["Huntingtin aggregation", "Ubiquitin-proteasome system"]),
  ("APP", ["Amyloid-beta production", "APP processing"]),
  ("MAPT", ["Tau protein function", "Microtubule stability"]),
  ("SOD1", ["Oxidative stress response", "Superoxide metabolism"]),
  ("DMD", ["Dystrophin-glycoprotein complex", "Muscle fiber integrity"]),
  ("CFTR", ["Chloride ion transport", "CFTR trafficking"]),
  ("FXN", ["Iron-sulfur cluster biogenesis", "Mitochondrial function"]),
  ("BRCA1", ["DNA repair", "Homologous recombination"]),
  ("BRCA2", ["DNA repair", "Genome stability"]),
  ("RB1", ["Cell cycle regulation", "G1/S checkpoint"]),
  ("DRD1", ["Dopamine signaling", "cAMP signaling"]),
  ("DRD2", ["Dopamine signaling", "G-protein coupled receptor"]),
  ("SLC6A3", ["Dopamine reuptake", "Neurotransmitter transport"]),
  ("TH", ["Dopamine biosynthesis", "Catecholamine synthesis"]),
  ("DDC", ["Dopamine biosynthesis", "Neurotransmitter synthesis"])]

/-- Executable lexicographic order on character lists (Python string `<=`
compares code points left to right). -/
def chLe : List Char → List Char → Bool
  | [], _ => true
  | _ :: _, [] => false
  | a :: as, b :: bs => if a < b then true else if b < a then false else chLe as bs

/-- Python string `<=`. -/
def strLeB (a b : String) : Bool :=
  chLe a.data b.data

/-- Lexicographic string sort, modelling Python `sorted` on a set of strings. -/
def sortStrings (l : List String) : List String :=
  List.insertionSort (fun a b => strLeB a b = true) l

/-- `RareDiseaseDataFetcher._map_genes_to_pathways` (`data_fetcher.py`):
accumulate the pathway sets of the known input genes (unknown genes are
ignored); return the sorted set, or the static fallback list when no
pathway was found. -/
def map_genes_to_pathways (genes : List String) : List String :=
  let pathways := (genes.flatMap (fun g => (alookup pathway_map g).getD [])).dedup
  if pathways.isEmpty then
    ["General cellular signaling", "Metabolic pathways"]
  else
    sortStrings pathways

end DrugProj

namespace DrugProj

/-- A multigraph over string-keyed nodes (the shape of the
`networkx.MultiDiGraph` the scorer receives): a node list plus a directed
edge list.  Parallel edges are permitted; the undirected projection used by
the scorer only consults adjacency, so edge keys are irrelevant. -/
structure KGraph where
  nodes : List String
  edges : List (String × String)

/-- All nodes of the graph (a `networkx` graph also contains every edge
endpoint as a node). -/
def KGraph.allNodes (G : KGraph) : List String :=
  (G.nodes ++ G.edges.flatMap (fun e => [e.1, e.2])).dedup

/-- `networkx` `has_node` on the undirected projection. -/
def KGraph.hasNode (G : KGraph) (v : String) : Bool :=
  G.allNodes.contains v

/-- Adjacency in the undirected projection `G.to_undirected()`. -/
def KGraph.adj (G : KGraph) (u v : String) : Bool :=
  G.edges.any (fun e => (e.1 == u && e.2 == v) || (e.1 == v && e.2 == u))

/-- `reachLe G n u v`: there is a walk of length at most `n` from `u` to `v`
in the undirected projection of `G`. -/
def KGraph.reachLe (G : KGraph) : Nat → String → String → Bool
  | 0, u, v => u == v
  | n + 1, u, v => u == v || G.allNodes.any (fun w => G.adj u w && G.reachLe n w v)

/-- `networkx.shortest_path_length` over the undirected projection: the least
walk length, `none` when `v` is unreachable from `u` (where the library
raises `NetworkXNoPath`).  A shortest path, when one exists, has fewer edges
than there are nodes, so searching lengths `0..|V|` is exhaustive. -/
def KGraph.spl (G : KGraph) (u v : String) : Option Nat :=
  (List.range (G.allNodes.length + 1)).find? (fun n => G.reachLe n u v)

/-- `RepurposingScorer._compute_graph_score` (`scorer.py`): 0 when either
node is absent or no path exists (the `except` arm), otherwise
`round(max(0, 1 - (length - 1) * 0.2), 4)`. -/
def compute_graph_score (G : KGraph) (disease_name drug_id : String) : ℚ :=
  if !G.hasNode disease_name || !G.hasNode drug_id then 0
  else
    match G.spl disease_name drug_id with
    | none => 0
    | some length => pyRound4 (max 0 (1 - ((length : ℚ) - 1) * (2/10)))

/-- The `KNOWN_REPURPOSING` literature-prior table of `scorer.py`:
(drug identifier, disease-name substring) → prior-evidence score. -/
def KNOWN_REPURPOSING : List ((String × String) × ℚ) := [
  (("DB01235", "parkinson"), 1),
  (("DB01367", "parkinson"), 1),
  (("DB01037", "parkinson"), 1),
  (("DB00331", "parkinson"), 7/10),
  (("DB00331", "diabetes"), 1),
  (("DB00331", "cancer"), 7/10),
  (("DB00331", "aging"), 6/10),
  (("DB00877", "parkinson"), 6/10),
  (("DB00877", "cancer"), 8/10),
  (("DB00877", "aging"), 7/10),
  (("DB00619", "parkinson"), 5/10),
  (("DB04868", "parkinson"), 6/10),
  (("DB01356", "parkinson"), 5/10),
  (("DB01356", "alzheimer"), 5/10),
  (("DB00313", "parkinson"), 4/10),
  (("DB01394", "parkinson"), 4/10),
  (("DB06742", "parkinson"), 7/10),
  (("DB00201", "parkinson"), 6/10),
  (("DB00549", "parkinson"), 6/10),
  (("DB01276", "parkinson"), 6/10),
  (("DB01132", "parkinson"), 5/10),
  (("DB08826", "parkinson"), 5/10)]

/-- `RepurposingScorer._compute_literature_score` (`scorer.py`): the maximum
table value whose drug id matches and whose disease pattern is a substring
of the (lower-cased) disease name; 0 when nothing matches. -/
def compute_literature_score (drug_id disease_name : String) : ℚ :=
  KNOWN_REPURPOSING.foldl
    (fun best e =>
      if e.1.1 == drug_id && strIn e.1.2 disease_name then max best e.2 else best)
    0

/-- The scoring weights `WEIGHTS` of `scorer.py`. -/
def W_gene_target : ℚ := 40/100
/-- Pathway-overlap weight. -/
def W_pathway_overlap : ℚ := 35/100
/-- Graph-centrality weight. -/
def W_graph_centrality : ℚ := 10/100
/-- Literature-prior weight. -/
def W_literature : ℚ := 15/100

/-- The disease record consumed by the scorer (`disease_data` dict):
name, associated genes, associated pathways. -/
structure DiseaseRec where
  name : String
  genes : List String
  pathways : List String

/-- One entry of the drug database iterated by `score_candidates`
(the spec's `DrugRecord`): identifier, name, indication, mechanism,
SMILES, target genes, inferred pathways. -/
structure DrugRec where
  id : String
  name : String
  indication : String
  mechanism : String
  smiles : String
  targets : List String
  pathways : List String

/-- The spec's `DrugCandidate`, as constructed by `score_candidates`. -/
structure DrugCandidate where
  drug_name : String
  drug_id : String
  original_indication : String
  composite_score : ℚ
  pathway_overlap_score : ℚ
  gene_target_score : ℚ
  literature_score : ℚ
  shared_genes : List String
  shared_pathways : List String
  mechanism : String
  explanation : String
  confidence : String
  smiles : String
deriving DecidableEq

/-- `set(disease_data.get("genes", [])) & set(drug.get("targets", []))`,
as a duplicate-free list. -/
def sharedGenes (disease : DiseaseRec) (drug : DrugRec) : List String :=
  disease.genes.dedup.filter (fun g => drug.targets.contains g)

/-- `set(disease_data.get("pathways", [])) & set(drug.get("pathways", []))`. -/
def sharedPathways (disease : DiseaseRec) (drug : DrugRec) : List String :=
  disease.pathways.dedup.filter (fun p => drug.pathways.contains p)

/-- The gene-target sub-score of `score_candidates`:
`|shared| / |disease genes|`, boosted ×1.5 (capped at 1) for ≥ 3 shared
genes, ×1.2 for ≥ 2; 0 when the disease has no genes. -/
def geneTargetScore (disease : DiseaseRec) (drug : DrugRec) : ℚ :=
  let dg := disease.genes.dedup.length
  let s := (sharedGenes disease drug).length
  if 0 < dg then
    let base : ℚ := s / dg
    if 3 ≤ s then min (base * (15/10)) 1
    else if 2 ≤ s then min (base * (12/10)) 1
    else base
  else 0

/-- The pathway-overlap sub-score of `score_candidates`: Jaccard
`|shared| / |union|`, boosted ×1.4 for ≥ 3 shared, ×1.2 for 2, floored at
0.15 for exactly 1; 0 when the union is empty. -/
def pathwayOverlapScore (disease : DiseaseRec) (drug : DrugRec) : ℚ :=
  let u := (disease.pathways ++ drug.pathways).dedup.length
  let s := (sharedPathways disease drug).length
  if 0 < u then
    let base : ℚ := s / u
    if 3 ≤ s then min (base * (14/10)) 1
    else if 2 ≤ s then min (base * (12/10)) 1
    else if 1 ≤ s then max base (15/100)
    else base
  else 0

/-- The un-rounded composite score of one drug in `score_candidates`. -/
def compositeScore (disease : DiseaseRec) (G : KGraph) (drug : DrugRec) : ℚ :=
  W_gene_target * geneTargetScore disease drug +
  W_pathway_overlap * pathwayOverlapScore disease drug +
  W_graph_centrality * compute_graph_score G disease.name drug.id +
  W_literature * compute_literature_score drug.id (pyLower disease.name)

/-- The confidence tier of `score_candidates`, computed from the un-rounded
composite score. -/
def confidenceOf (composite : ℚ) : String :=
  if 65/100 ≤ composite then "High"
  else if 40/100 ≤ composite then "Medium"
  else "Low"

/-- The `DrugCandidate` built for one drug in the loop of
`score_candidates`. -/
def mkCandidate (disease : DiseaseRec) (G : KGraph) (drug : DrugRec) : DrugCandidate :=
  { drug_name := drug.name
    drug_id := drug.id
    original_indication := drug.indication
    composite_score := pyRound4 (compositeScore disease G drug)
    pathway_overlap_score := pyRound4 (pathwayOverlapScore disease drug)
    gene_target_score := pyRound4 (geneTargetScore disease drug)
    literature_score := pyRound4 (compute_literature_score drug.id (pyLower disease.name))
    shared_genes := sortStrings (sharedGenes disease drug)
    shared_pathways := sortStrings (sharedPathways disease drug)
    mechanism := drug.mechanism
    explanation := ""
    confidence := confidenceOf (compositeScore disease G drug)
    smiles := drug.smiles }

/-- Descending order on stored composite scores, the sort key of
`candidates.sort(key=..., reverse=True)`. -/
def byScore (a b : DrugCandidate) : Prop :=
  b.composite_score ≤ a.composite_score

instance : DecidableRel byScore := fun a b =>
  inferInstanceAs (Decidable (b.composite_score ≤ a.composite_score))

instance : IsTotal DrugCandidate byScore :=
  ⟨fun a b => le_total b.composite_score a.composite_score⟩

instance : IsTrans DrugCandidate byScore :=
  ⟨fun _ _ _ h h' => le_trans h' h⟩

/-- The inclusion test of the loop of `score_candidates`: a drug is skipped
when its composite score is below `min_score` and it has no gene and no
pathway overlap; otherwise its `DrugCandidate` is built. -/
def keepDrug (disease : DiseaseRec) (G : KGraph) (min_score : ℚ)
    (drug : DrugRec) : Option DrugCandidate :=
  if compositeScore disease G drug < min_score
      && (sharedGenes disease drug).isEmpty
      && (sharedPathways disease drug).isEmpty then
    none
  else
    some (mkCandidate disease G drug)

/-- `RepurposingScorer.score_candidates` (`scorer.py`), with the module-level
`DRUG_DATABASE` dict passed explicitly as the list `db` (the spec's `drugs`
argument).  Per drug: compute the four sub-scores and the composite; skip the
drug when the composite is below `min_score` and there is no gene or pathway
overlap; then sort the candidates descending by stored composite score
(Python's stable sort is modelled by a stable insertion sort), keep those
with stored composite ≥ `min_score`, and truncate to `top_k`. -/
def score_candidates (db : List DrugRec) (disease : DiseaseRec) (G : KGraph)
    (top_k : Nat := 10) (min_score : ℚ := 3/10) : List DrugCandidate :=
  let candidates := db.filterMap (keepDrug disease G min_score)
  let sorted := List.insertionSort byScore candidates
  (sorted.filter (fun c => min_score ≤ c.composite_score)).take top_k

end DrugProj

namespace DrugProj

/-- One entry of a `CRITICAL_CONTRAINDICATIONS` rule list: drug-name
fragments, clinical reason, severity tag (`"absolute"` or `"relative"`). -/
structure ContraRule where
  drugs : List String
  reason : String
  severity : String
deriving DecidableEq

/-- The `CRITICAL_CONTRAINDICATIONS` table of `drug_filter.py`:
disease key → ordered rule list (drug-name fragments, clinical reason,
severity tag). -/
def CRITICAL_CONTRAINDICATIONS : List (String × List ContraRule) := [
  ("diabetes", [
    { drugs := ["olanzapine", "clozapine", "quetiapine", "risperidone", "ziprasidone", "aripiprazole", "asenapine", "iloperidone", "lurasidone", "paliperidone"],
      reason := "FDA Black Box Warning: Atypical antipsychotics cause hyperglycemia, new-onset diabetes mellitus, and diabetic ketoacidosis. Olanzapine and clozapine carry the highest risk.",
      severity := "absolute" },
    { drugs := ["prednisone", "dexamethasone", "methylprednisolone", "hydrocortisone", "betamethasone", "triamcinolone", "fludrocortisone", "cortisone"],
      reason := "Corticosteroids cause steroid-induced diabetes and worsen glycemic control in existing diabetics via gluconeogenesis.",
      severity := "absolute" },
    { drugs := ["hydrochlorothiazide", "chlorothiazide", "chlorthalidone", "indapamide", "metolazone"],
      reason := "Thiazide diuretics impair insulin secretion and cause hyperglycemia; worsen glucose control in T2DM.",
      severity := "relative" },
    { drugs := ["propranolol", "atenolol", "metoprolol", "nadolol", "carvedilol", "bisoprolol", "labetalol"],
      reason := "Non-selective beta-blockers mask hypoglycemia symptoms and impair glycogenolysis; worsen insulin resistance.",
      severity := "relative" },
    { drugs := ["niacin", "nicotinic acid", "niacinamide"],
      reason := "High-dose niacin causes dose-dependent hyperglycemia and worsens insulin resistance.",
      severity := "relative" },
    { drugs := ["gatifloxacin", "levofloxacin", "moxifloxacin", "ciprofloxacin"],
      reason := "Fluoroquinolones cause both hypoglycemia and hyperglycemia; FDA warning for serious dysglycemia in diabetics.",
      severity := "relative" }]),
  ("parkinson", [
    { drugs := ["haloperidol", "perphenazine", "fluphenazine", "thioridazine", "trifluoperazine", "chlorpromazine", "droperidol", "pimozide", "thiothixene"],
      reason := "Typical antipsychotics (dopamine D2 antagonists) directly worsen Parkinson\x27s by blocking dopamine receptors — absolute contraindication.",
      severity := "absolute" },
    { drugs := ["olanzapine", "risperidone", "aripiprazole", "ziprasidone", "asenapine", "iloperidone", "paliperidone"],
      reason := "Atypical antipsychotics with significant D2 blockade worsen parkinsonian motor symptoms. Only quetiapine/clozapine are tolerated.",
      severity := "absolute" },
    { drugs := ["metoclopramide", "prochlorperazine", "promethazine", "trimethobenzamide"],
      reason := "Dopamine-blocking antiemetics cross the BBB and worsen Parkinson\x27s motor symptoms.",
      severity := "absolute" },
    { drugs := ["reserpine", "tetrabenazine"],
      reason := "Dopamine-depleting agents worsen Parkinson\x27s by reducing presynaptic dopamine availability.",
      severity := "absolute" },
    { drugs := ["lithium"],
      reason := "Lithium can worsen parkinsonian tremor and cause drug-induced parkinsonism.",
      severity := "relative" }]),
  ("alzheimer", [
    { drugs := ["diphenhydramine", "hydroxyzine", "promethazine", "chlorpheniramine", "cyproheptadine", "meclizine", "dimenhydrinate", "brompheniramine"],
      reason := "First-generation antihistamines with strong anticholinergic activity worsen cognitive function and memory in Alzheimer\x27s.",
      severity := "absolute" },
    { drugs := ["benztropine", "trihexyphenidyl", "scopolamine", "oxybutynin", "tolterodine", "solifenacin", "fesoterodine", "darifenacin", "flavoxate"],
      reason := "Anticholinergic drugs directly antagonize the cholinergic system, the primary target of Alzheimer\x27s treatment — will negate benefit of cholinesterase inhibitors.",
      severity := "absolute" },
    { drugs := ["amitriptyline", "imipramine", "doxepin", "clomipramine", "nortriptyline", "trimipramine"],
      reason := "TCAs have strong anticholinergic activity that worsens cognitive impairment in Alzheimer\x27s.",
      severity := "absolute" },
    { drugs := ["diazepam", "lorazepam", "alprazolam", "clonazepam", "temazepam", "triazolam", "midazolam", "oxazepam"],
      reason := "Benzodiazepines increase risk of cognitive decline and dementia progression; associated with 50% increased dementia risk.",
      severity := "absolute" },
    { drugs := ["haloperidol", "olanzapine", "quetiapine", "risperidone", "aripiprazole", "clozapine"],
      reason := "FDA Black Box Warning: Antipsychotics cause increased mortality in elderly patients with dementia-related psychosis.",
      severity := "absolute" }]),
  ("asthma", [
    { drugs := ["propranolol", "nadolol", "timolol", "sotalol", "pindolol", "penbutolol", "carteolol"],
      reason := "LIFE-THREATENING: Non-selective beta-blockers block β2 receptors in bronchial smooth muscle, causing fatal bronchospasm in asthmatics.",
      severity := "absolute" },
    { drugs := ["atenolol", "metoprolol", "bisoprolol", "acebutolol", "betaxolol", "esmolol"],
      reason := "Cardioselective beta-blockers lose selectivity at higher doses; contraindicated in moderate-severe asthma.",
      severity := "absolute" },
    { drugs := ["aspirin", "ibuprofen", "naproxen", "indomethacin", "ketorolac", "diclofenac", "celecoxib"],
      reason := "NSAIDs trigger bronchospasm in aspirin-exacerbated respiratory disease (AERD), affecting ~10% of adult asthmatics.",
      severity := "relative" },
    { drugs := ["lisinopril", "enalapril", "ramipril", "captopril", "benazepril", "quinapril", "perindopril", "fosinopril"],
      reason := "ACE inhibitors cause dry cough in 15-20% of patients via bradykinin accumulation; can trigger asthma exacerbations.",
      severity := "relative" }]),
  ("copd", [
    { drugs := ["propranolol", "nadolol", "timolol", "sotalol", "atenolol", "metoprolol", "bisoprolol"],
      reason := "Beta-blockers cause bronchospasm and worsen airflow obstruction in COPD patients.",
      severity := "absolute" },
    { drugs := ["benzodiazepines", "diazepam", "lorazepam", "alprazolam", "clonazepam", "temazepam"],
      reason := "Benzodiazepines cause respiratory depression; dangerous in COPD patients with hypercapnia.",
      severity := "absolute" },
    { drugs := ["opioids", "morphine", "oxycodone", "hydrocodone", "codeine", "fentanyl"],
      reason := "Opioids suppress respiratory drive; particularly dangerous in COPD with CO2 retention.",
      severity := "absolute" }]),
  ("epilepsy", [
    { drugs := ["tramadol", "bupropion", "clozapine", "olanzapine", "chlorpromazine", "thioridazine"],
      reason := "Lower seizure threshold significantly; contraindicated in epilepsy.",
      severity := "absolute" },
    { drugs := ["fluoroquinolones", "ciprofloxacin", "levofloxacin", "moxifloxacin"],
      reason := "Fluoroquinolones inhibit GABA-A receptors and lower seizure threshold.",
      severity := "relative" },
    { drugs := ["meperidine", "pethidine"],
      reason := "Normeperidine (active metabolite) lowers seizure threshold; contraindicated in epilepsy.",
      severity := "absolute" }]),
  ("heart_failure", [
    { drugs := ["verapamil", "diltiazem"],
      reason := "Non-dihydropyridine calcium channel blockers have negative inotropic effects; worsen systolic heart failure.",
      severity := "absolute" },
    { drugs := ["nifedipine", "amlodipine", "felodipine"],
      reason := "Dihydropyridine CCBs cause reflex tachycardia and fluid retention; worsen decompensated heart failure.",
      severity := "relative" },
    { drugs := ["rosiglitazone", "pioglitazone", "thiazolidinedione"],
      reason := "Thiazolidinediones cause fluid retention and worsen or precipitate heart failure.",
      severity := "absolute" },
    { drugs := ["nsaids", "ibuprofen", "naproxen", "celecoxib", "indomethacin", "diclofenac"],
      reason := "NSAIDs cause sodium/fluid retention, reduce diuretic efficacy, and worsen heart failure.",
      severity := "absolute" },
    { drugs := ["dronedarone"],
      reason := "Increases mortality in patients with permanent AF and symptomatic heart failure.",
      severity := "absolute" }]),
  ("myasthenia_gravis", [
    { drugs := ["fluoroquinolones", "ciprofloxacin", "levofloxacin", "moxifloxacin", "aminoglycosides", "gentamicin", "tobramycin", "amikacin"],
      reason := "Antibiotics impair neuromuscular transmission and can trigger myasthenic crisis.",
      severity := "absolute" },
    { drugs := ["beta-blockers", "propranolol", "atenolol", "metoprolol", "timolol"],
      reason := "Beta-blockers worsen myasthenia gravis and can precipitate crisis.",
      severity := "absolute" },
    { drugs := ["chloroquine", "hydroxychloroquine", "quinine"],
      reason := "Antimalarials can unmask or worsen myasthenia gravis.",
      severity := "absolute" },
    { drugs := ["d-penicillamine"],
      reason := "D-penicillamine can induce an autoimmune myasthenia-like syndrome.",
      severity := "absolute" }]),
  ("glaucoma", [
    { drugs := ["anticholinergics", "atropine", "scopolamine", "benztropine", "oxybutynin", "tolterodine", "ipratropium", "tiotropium"],
      reason := "Anticholinergics cause pupillary dilation that can trigger acute angle-closure glaucoma attack.",
      severity := "absolute" },
    { drugs := ["topiramate", "acetazolamide"],
      reason := "Can cause acute angle-closure glaucoma as a rare but serious adverse effect.",
      severity := "relative" }]),
  ("osteoporosis", [
    { drugs := ["prednisone", "dexamethasone", "methylprednisolone", "hydrocortisone", "cortisone", "betamethasone", "triamcinolone", "fludrocortisone"],
      reason := "Corticosteroids are the #1 cause of drug-induced osteoporosis; reduce bone formation and increase bone resorption.",
      severity := "absolute" },
    { drugs := ["heparin"],
      reason := "Long-term heparin use causes osteoporosis via osteoclast activation.",
      severity := "relative" },
    { drugs := ["levothyroxine", "thyroxine"],
      reason := "Supraphysiologic thyroid hormone suppression therapy accelerates bone loss.",
      severity := "relative" },
    { drugs := ["anticonvulsants", "phenytoin", "carbamazepine", "phenobarbital", "valproic acid"],
      reason := "Enzyme-inducing anticonvulsants increase vitamin D catabolism and worsen bone loss.",
      severity := "relative" }]),
  ("gout", [
    { drugs := ["hydrochlorothiazide", "chlorothiazide", "furosemide", "bumetanide", "ethacrynic acid", "torsemide"],
      reason := "Diuretics decrease renal uric acid excretion, causing hyperuricemia and precipitating gout attacks.",
      severity := "absolute" },
    { drugs := ["aspirin", "salicylates"],
      reason := "Low-dose aspirin blocks uric acid secretion and raises serum uric acid levels.",
      severity := "relative" },
    { drugs := ["cyclosporine", "tacrolimus"],
      reason := "Calcineurin inhibitors reduce renal urate clearance and commonly cause gout.",
      severity := "absolute" },
    { drugs := ["niacin", "nicotinic acid"],
      reason := "Niacin competes with uric acid for renal excretion, raising serum urate levels.",
      severity := "relative" },
    { drugs := ["pyrazinamide", "ethambutol"],
      reason := "Antituberculars inhibit renal uric acid excretion and commonly trigger gout.",
      severity := "absolute" }]),
  ("kidney_disease", [
    { drugs := ["metformin"],
      reason := "Metformin is contraindicated in severe CKD (eGFR<30) due to risk of lactic acidosis.",
      severity := "absolute" },
    { drugs := ["nsaids", "ibuprofen", "naproxen", "celecoxib", "indomethacin", "diclofenac", "ketorolac"],
      reason := "NSAIDs reduce renal blood flow via prostaglandin inhibition; worsen renal function and can cause acute kidney injury.",
      severity := "absolute" },
    { drugs := ["gadolinium"],
      reason := "Gadolinium contrast causes nephrogenic systemic fibrosis in severe CKD.",
      severity := "absolute" },
    { drugs := ["gentamicin", "tobramycin", "amikacin", "vancomycin"],
      reason := "Nephrotoxic antibiotics require dose adjustment and cause further renal damage.",
      severity := "absolute" }]),
  ("liver_disease", [
    { drugs := ["acetaminophen", "paracetamol"],
      reason := "Hepatotoxic at standard doses in liver disease; maximum dose must be reduced to 2g/day.",
      severity := "absolute" },
    { drugs := ["statins", "atorvastatin", "simvastatin", "rosuvastatin", "lovastatin", "fluvastatin", "pravastatin"],
      reason := "Statins are metabolized by the liver; contraindicated in active liver disease or unexplained transaminase elevations.",
      severity := "absolute" },
    { drugs := ["isoniazid", "rifampin", "rifampicin"],
      reason := "Antituberculars are hepatotoxic and contraindicated in significant liver disease.",
      severity := "absolute" },
    { drugs := ["methotrexate"],
      reason := "Methotrexate causes hepatic fibrosis/cirrhosis; contraindicated in liver disease.",
      severity := "absolute" },
    { drugs := ["tetracycline", "doxycycline", "minocycline"],
      reason := "Tetracyclines can cause fatty liver; use with caution in liver disease.",
      severity := "relative" }]),
  ("inflammatory_bowel_disease", [
    { drugs := ["nsaids", "ibuprofen", "naproxen", "aspirin", "indomethacin", "diclofenac"],
      reason := "NSAIDs trigger IBD flares by disrupting intestinal mucosal barrier and increasing intestinal permeability.",
      severity := "absolute" },
    { drugs := ["infliximab", "adalimumab", "certolizumab"],
      reason := "TNF inhibitors reactivate latent TB and other infections; screen before use.",
      severity := "relative" }]),
  ("psoriasis", [
    { drugs := ["lithium"],
      reason := "Lithium commonly triggers or worsens psoriasis flares.",
      severity := "absolute" },
    { drugs := ["propranolol", "atenolol", "metoprolol"],
      reason := "Beta-blockers can trigger or worsen psoriasis.",
      severity := "relative" },
    { drugs := ["antimalarials", "chloroquine", "hydroxychloroquine"],
      reason := "Antimalarials can trigger pustular psoriasis flares.",
      severity := "relative" }]),
  ("wilson_disease", [
    { drugs := ["zinc", "zinc sulfate", "zinc gluconate"],
      reason := "High-dose zinc supplementation can interfere with Wilson\x27s disease treatment by competing with copper chelation.",
      severity := "relative" },
    { drugs := ["iron", "ferrous sulfate", "ferrous gluconate"],
      reason := "Iron supplementation competes with copper chelation therapy used in Wilson\x27s disease.",
      severity := "relative" }]),
  ("porphyria", [
    { drugs := ["sulfonamides", "sulfamethoxazole", "trimethoprim"],
      reason := "Sulfonamides induce porphyrin synthesis; trigger acute porphyria attacks.",
      severity := "absolute" },
    { drugs := ["barbiturates", "phenobarbital", "pentobarbital"],
      reason := "Barbiturates are among the most dangerous drugs in acute porphyria; can be fatal.",
      severity := "absolute" },
    { drugs := ["griseofulvin", "rifampin", "carbamazepine", "phenytoin"],
      reason := "Enzyme-inducing drugs precipitate acute porphyria attacks.",
      severity := "absolute" },
    { drugs := ["alcohol", "ethanol"],
      reason := "Alcohol is a potent precipitant of acute porphyria attacks.",
      severity := "absolute" }]),
  ("sickle_cell_disease", [
    { drugs := ["estrogen", "oral contraceptives", "ethinyl estradiol"],
      reason := "Estrogen increases thrombotic risk in sickle cell disease.",
      severity := "relative" },
    { drugs := ["desmopressin", "ddavp"],
      reason := "DDAVP can cause severe hyponatremia in sickle cell disease.",
      severity := "relative" }])]

/-- The `DISEASE_NAME_MAP` alias table of `drug_filter.py`:
alias fragment → canonical disease key (insertion order preserved). -/
def DISEASE_NAME_MAP : List (String × String) := [
  ("parkinson", "parkinson"),
  ("parkinsonian", "parkinson"),
  ("parkinson\x27s disease", "parkinson"),
  ("parkinson disease", "parkinson"),
  ("alzheimer", "alzheimer"),
  ("alzheimer\x27s disease", "alzheimer"),
  ("dementia", "alzheimer"),
  ("diabetes", "diabetes"),
  ("diabetic", "diabetes"),
  ("type 2 diabetes", "diabetes"),
  ("type 1 diabetes", "diabetes"),
  ("diabetes mellitus", "diabetes"),
  ("t2dm", "diabetes"),
  ("type 2 diabetes mellitus", "diabetes"),
  ("t1dm", "diabetes"),
  ("dm2", "diabetes"),
  ("dm1", "diabetes"),
  ("asthma", "asthma"),
  ("bronchial asthma", "asthma"),
  ("copd", "copd"),
  ("chronic obstructive pulmonary disease", "copd"),
  ("emphysema", "copd"),
  ("epilepsy", "epilepsy"),
  ("seizure disorder", "epilepsy"),
  ("seizures", "epilepsy"),
  ("heart failure", "heart_failure"),
  ("cardiac failure", "heart_failure"),
  ("congestive heart failure", "heart_failure"),
  ("chf", "heart_failure"),
  ("hypertension", "hypertension"),
  ("high blood pressure", "hypertension"),
  ("glaucoma", "glaucoma"),
  ("myasthenia gravis", "myasthenia_gravis"),
  ("myasthenia", "myasthenia_gravis"),
  ("kidney disease", "kidney_disease"),
  ("renal disease", "kidney_disease"),
  ("chronic kidney disease", "kidney_disease"),
  ("ckd", "kidney_disease"),
  ("renal failure", "kidney_disease"),
  ("liver disease", "liver_disease"),
  ("hepatic disease", "liver_disease"),
  ("cirrhosis", "liver_disease"),
  ("hepatitis", "liver_disease"),
  ("osteoporosis", "osteoporosis"),
  ("bone loss", "osteoporosis"),
  ("gout", "gout"),
  ("hyperuricemia", "gout"),
  ("psoriasis", "psoriasis"),
  ("crohn\x27s disease", "inflammatory_bowel_disease"),
  ("ulcerative colitis", "inflammatory_bowel_disease"),
  ("inflammatory bowel disease", "inflammatory_bowel_disease"),
  ("ibd", "inflammatory_bowel_disease"),
  ("gaucher disease", "gaucher_disease"),
  ("porphyria", "porphyria"),
  ("huntington\x27s disease", "huntington_disease"),
  ("huntington disease", "huntington_disease"),
  ("cystic fibrosis", "cystic_fibrosis"),
  ("duchenne muscular dystrophy", "duchenne_muscular_dystrophy"),
  ("duchenne", "duchenne_muscular_dystrophy"),
  ("dmd", "duchenne_muscular_dystrophy"),
  ("fabry disease", "fabry_disease"),
  ("pompe disease", "pompe_disease"),
  ("amyotrophic lateral sclerosis", "amyotrophic_lateral_sclerosis"),
  ("als", "amyotrophic_lateral_sclerosis"),
  ("motor neuron disease", "amyotrophic_lateral_sclerosis"),
  ("hemophilia", "hemophilia"),
  ("haemophilia", "hemophilia"),
  ("sickle cell disease", "sickle_cell_disease"),
  ("sickle cell anemia", "sickle_cell_disease"),
  ("myotonic dystrophy", "myotonic_dystrophy"),
  ("phenylketonuria", "phenylketonuria"),
  ("pku", "phenylketonuria"),
  ("wilson disease", "wilson_disease"),
  ("wilson\x27s disease", "wilson_disease")]

/-- The static `WITHDRAWN_DRUGS` set of `drug_filter.py`. -/
def WITHDRAWN_DRUGS : List String := [
  "troglitazone",
  "rofecoxib",
  "cerivastatin",
  "fenfluramine",
  "dexfenfluramine",
  "terfenadine",
  "astemizole",
  "cisapride",
  "valdecoxib",
  "lumiracoxib",
  "pemoline",
  "propoxyphene",
  "sibutramine",
  "tegaserod",
  "aprotinin",
  "ximelagatran",
  "trovafloxacin",
  "levomethadyl"]

/-- The `DISEASE_KEYWORDS` table of `drug_filter.py` (Layer-2 label scan). -/
def DISEASE_KEYWORDS : List (String × List String) := [
  ("parkinson", ["parkinson", "parkinsonism", "extrapyramidal", "dopamine antagonist", "levodopa"]),
  ("alzheimer", ["alzheimer", "dementia", "cognitive impairment", "anticholinergic"]),
  ("diabetes", ["diabetes", "diabetic", "hyperglycemia", "blood glucose", "insulin", "glycemic", "hypoglycemia", "glucose intolerance", "diabetic ketoacidosis"]),
  ("asthma", ["asthma", "asthmatic", "bronchospasm", "bronchial", "bronchoconstriction", "bronchial hyperreactivity"]),
  ("copd", ["copd", "chronic obstructive", "emphysema", "bronchospasm"]),
  ("epilepsy", ["epilepsy", "seizure", "convulsion", "seizure threshold"]),
  ("heart_failure", ["heart failure", "cardiac failure", "congestive heart failure"]),
  ("hypertension", ["hypertension", "high blood pressure"]),
  ("glaucoma", ["glaucoma", "intraocular pressure", "angle-closure"]),
  ("myasthenia_gravis", ["myasthenia gravis", "myasthenic"]),
  ("kidney_disease", ["renal impairment", "renal failure", "chronic kidney", "ckd"]),
  ("liver_disease", ["hepatic impairment", "hepatotoxic", "cirrhosis", "liver disease"]),
  ("osteoporosis", ["osteoporosis", "bone density", "bone loss"]),
  ("gout", ["gout", "uric acid", "hyperuricemia"]),
  ("psoriasis", ["psoriasis", "psoriatic"]),
  ("inflammatory_bowel_disease", ["crohn", "ulcerative colitis", "inflammatory bowel"])]

/-- The ordered `LABEL_SECTIONS` list of `drug_filter.py`. -/
def LABEL_SECTIONS : List String := ["contraindications", "boxed_warning", "warnings_and_precautions", "warnings"]

end DrugProj

namespace DrugProj

/-- One step of the longest-fragment scan of `normalize_disease_name`: a
fragment that occurs in the input and is strictly longer than the best
match so far replaces it. -/
def bestStep (lower : String) (best : Option String × Nat) (fk : String × String) :
    Option String × Nat :=
  if strIn fk.1 lower && decide (best.2 < fk.1.length)
  then (some fk.2, fk.1.length) else best

/-- `normalize_disease_name` (`drug_filter.py`): lower-case and strip the
input; an exact key of `CRITICAL_CONTRAINDICATIONS` or `DISEASE_KEYWORDS`
is returned as-is; otherwise scan `DISEASE_NAME_MAP` in insertion order and
keep the key of the first longest fragment that occurs in the input
(`None` when no fragment matches). -/
def normalize_disease_name (disease_name : String) : Option String :=
  let lower := pyStrip (pyLower disease_name)
  if (alookup CRITICAL_CONTRAINDICATIONS lower).isSome then some lower
  else if (alookup DISEASE_KEYWORDS lower).isSome then some lower
  else
    (DISEASE_NAME_MAP.foldl (bestStep lower) ((none : Option String), 0)).1

/-- The dict returned for a filtered drug (`_check_hardcoded_contraindications`
and the withdrawn/label arms of `_async_filter`). -/
structure FilterHit where
  drug : String
  reason : String
  severity : String
  source : String
  fda_section : String
deriving DecidableEq

/-- The per-rule match test of `_check_hardcoded_contraindications`: some
fragment of the rule equals the lower-cased stripped drug name, is a prefix
of it, or occurs inside it. -/
def ruleMatches (drug_lower : String) (contra : ContraRule) : Bool :=
  contra.drugs.any (fun known_drug =>
    let known_lower := pyLower known_drug
    known_lower == drug_lower || strStarts drug_lower known_lower
      || strIn known_lower drug_lower)

/-- The contraindication-info dict built by
`_check_hardcoded_contraindications` from the first matching rule. -/
def ruleHit (drug_name : String) (contra : ContraRule) : FilterHit :=
  { drug := drug_name
    reason := contra.reason
    severity := contra.severity
    source := "clinical_contraindications_db"
    fda_section := if contra.severity == "absolute" then "contraindications"
                   else "warnings_and_precautions" }

/-- `_check_hardcoded_contraindications` (`drug_filter.py`): for the given
disease key, return the hit of the first rule matched by the lower-cased
stripped drug name; `None` when the key is absent or nothing matches. -/
def check_hardcoded_contraindications (drug_name : String) (disease_key : Option String) :
    Option FilterHit :=
  match disease_key with
  | none => none
  | some key =>
    match alookup CRITICAL_CONTRAINDICATIONS key with
    | none => none
    | some rules =>
      (rules.find? (ruleMatches (pyStrip (pyLower drug_name)))).map (ruleHit drug_name)

/-- A structured FDA label as consumed by `_find_disease_mention`: the four
scanned sections as raw text (`""` models a missing or empty section, which
`_extract_label_text` also maps to `""`). -/
structure Label where
  contraindications : String
  boxed_warning : String
  warnings_and_precautions : String
  warnings : String
deriving DecidableEq

/-- `_extract_label_text` (`drug_filter.py`): the lower-cased text of one
label section, `""` when the section is missing or empty. -/
def extract_label_text (label : Label) (section' : String) : String :=
  pyLower (if section' == "contraindications" then label.contraindications
    else if section' == "boxed_warning" then label.boxed_warning
    else if section' == "warnings_and_precautions" then label.warnings_and_precautions
    else if section' == "warnings" then label.warnings
    else "")

/-- `str.find`: index of the first occurrence of `needle`, as used for the
excerpt slice (the caller only invokes it when the needle is present). -/
def chFind (needle : List Char) : List Char → Nat
  | [] => 0
  | c :: t => if chPre needle (c :: t) then 0 else chFind needle t + 1

/-- Worker for `wsCollapse`: `prevSpace` records whether the previous
character belonged to a whitespace run already emitted as one space. -/
def wsCollapseAux (prevSpace : Bool) : List Char → List Char
  | [] => []
  | c :: t =>
    if pySpace c then
      if prevSpace then wsCollapseAux true t else ' ' :: wsCollapseAux true t
    else c :: wsCollapseAux false t

/-- `re.sub(r"\s+", " ", text)`: collapse whitespace runs to single spaces. -/
def wsCollapse (l : List Char) : List Char :=
  wsCollapseAux false l

/-- The excerpt built by `_find_disease_mention` around the first keyword
occurrence: 80 characters of context before, 180 after, stripped and
whitespace-collapsed. -/
def mkExcerpt (text kw : String) : String :=
  let idx := chFind kw.data text.data
  let start := idx - 80
  let len := min text.data.length (idx + 180) - start
  ⟨wsCollapse (pyStrip ⟨(text.data.drop start).take len⟩).data⟩

/-- The per-section body of the loop in `_find_disease_mention`: skip an
empty section; otherwise the first keyword contained in the section text
determines severity and excerpt. -/
def sectionMention (label : Label) (keywords : List String) (section' : String) :
    Option (String × String × String) :=
  let text := extract_label_text label section'
  if text == "" then none
  else
    (keywords.find? (fun kw => strIn (pyLower kw) text)).map (fun kw =>
      let severity :=
        if section' == "contraindications" || section' == "boxed_warning"
          || section' == "warnings_and_precautions" || section' == "warnings"
        then "absolute" else "relative"
      (section', severity, "..." ++ mkExcerpt text (pyLower kw) ++ "..."))

/-- The `for section in LABEL_SECTIONS` loop of `_find_disease_mention`:
first section with a mention wins. -/
def scanSections (label : Label) (keywords : List String) :
    List String → Option (String × String × String)
  | [] => none
  | section' :: rest =>
    match sectionMention label keywords section' with
    | some r => some r
    | none => scanSections label keywords rest

/-- `_find_disease_mention` (`drug_filter.py`): scan the label sections in
order; in the first non-empty section containing a keyword, the first such
keyword determines the result (section, severity, excerpt).  All four
scanned sections are classified `"absolute"`. -/
def find_disease_mention (label : Label) (keywords : List String) :
    Option (String × String × String) :=
  scanSections label keywords LABEL_SECTIONS

end DrugProj

namespace DrugProj

/-- The Layer-2 environment: the FDA label (or `None`) that the concurrent
fetch of `_async_filter` would associate with a lower-cased drug name
(`_fetch_label` queries and caches by lower-cased name; a fetch failure is
`None`). -/
def LabelEnv : Type := String → Option Label

/-- The withdrawn-drug hit built in `_async_filter`. -/
def withdrawnHit (drug : String) : FilterHit :=
  { drug := drug
    reason := "Market-withdrawn drug (FDA safety recall)."
    severity := "withdrawn"
    source := "withdrawn_db"
    fda_section := "market_withdrawal" }

/-- The label hit built in `_async_filter` from a `_find_disease_mention`
result. -/
def labelHit (drug section' severity excerpt : String) : FilterHit :=
  { drug := drug
    reason := "FDA label (" ++ ⟨(section'.data.map (fun c => if c == '_' then ' ' else c))⟩
      ++ "): " ++ excerpt
    severity := severity
    source := "fda_label"
    fda_section := section' }

/-- The per-drug body of the loop in `_async_filter` (`drug_filter.py`):
withdrawn check on the lower-cased name first, Layer-1 hardcoded rules
second, Layer-2 label scan last (only when keywords exist for the disease;
a missing label is a pass-through).  Returns the filtered-info dict, or
`none` when the drug is passed through as safe.  The `labels` dict of the
source is populated only when keywords exist, so the label lookup is
guarded by `fda_keywords`. -/
def filterDecision (disease_name : String) (labels : LabelEnv) (drug : String) :
    Option FilterHit :=
  let disease_key := normalize_disease_name disease_name
  let fda_keywords := (disease_key.bind (alookup DISEASE_KEYWORDS ·)).getD []
  let drug_lower := pyLower drug
  if WITHDRAWN_DRUGS.contains drug_lower then
    some (withdrawnHit drug)
  else
    match check_hardcoded_contraindications drug disease_key with
    | some hardcoded_hit => some hardcoded_hit
    | none =>
      (if fda_keywords.isEmpty then none else labels drug_lower).bind (fun label =>
        if fda_keywords.isEmpty then none
        else
          (find_disease_mention label fda_keywords).map (fun r =>
            labelHit drug r.1 r.2.1 r.2.2))

/-- `DrugSafetyFilter._async_filter` (`drug_filter.py`): split the drug-name
list into pass-through names and filtered-info dicts, in input order. -/
def async_filter (candidate_drugs : List String) (disease_name : String)
    (labels : LabelEnv) : List String × List FilterHit :=
  (candidate_drugs.filter (fun d => (filterDecision disease_name labels d).isNone),
   candidate_drugs.filterMap (filterDecision disease_name labels))

/-- A pipeline candidate dict as passed to `filter_candidates`; the source
reads `c.get("drug_name") or c.get("name") or ""`, modelled by a candidate
that carries its resolved drug name. -/
structure CandIn where
  drug_name : String
deriving DecidableEq

/-- A candidate as returned by `filter_candidates`: the matched-candidate
dict with the `contraindication` and `safety_warning` fields it may have
acquired. -/
structure CandOut where
  drug_name : String
  contraindication : Option FilterHit
  safety_warning : Option String
deriving DecidableEq

/-- The per-name routing step of the output loop of `filter_candidates`:
look up the (last-wins) candidate for the lower-cased name, attach the
contraindication info when the name was filtered, and send the candidate to
the safe list (`Sum.inl`) or the filtered list (`Sum.inr`). -/
def routeOne (name_to_candidate : List (String × CandIn))
    (filtered_name_map : List (String × FilterHit))
    (remove_absolute remove_relative : Bool) (drug_name : String) :
    CandOut ⊕ CandOut :=
  let key := pyLower drug_name
  let candidate := (dlookup name_to_candidate key).getD { drug_name := drug_name }
  match dlookup filtered_name_map key with
  | some hit =>
    let withContra : CandOut :=
      { drug_name := candidate.drug_name, contraindication := some hit,
        safety_warning := none }
    if hit.severity == "withdrawn" then Sum.inr withContra
    else if hit.severity == "absolute" && remove_absolute then Sum.inr withContra
    else if hit.severity == "relative" && remove_relative then Sum.inr withContra
    else Sum.inl { withContra with safety_warning := some hit.reason }
  | none =>
    Sum.inl { drug_name := candidate.drug_name, contraindication := none,
              safety_warning := none }

/-- The `name_to_candidate` dict comprehension of `filter_candidates`
(lower-cased name → candidate; on duplicates the last binding wins, which
`dlookup` models). -/
def nameToCandidate (candidates : List CandIn) : List (String × CandIn) :=
  candidates.map (fun c => (pyLower c.drug_name, c))

/-- The `filtered_name_map` dict comprehension of `filter_candidates`
(lower-cased filtered drug name → filtered-info dict). -/
def filteredNameMap (candidates : List CandIn) (disease_name : String)
    (labels : LabelEnv) : List (String × FilterHit) :=
  ((async_filter (candidates.map (·.drug_name)) disease_name labels).2).map
    (fun f => (pyLower f.drug, f))

/-- `DrugSafetyFilter.filter_candidates` (`drug_filter.py`): resolve the
drug names, run the two-layer filter, and route every candidate into the
safe list or the filtered list (both defaults are `True`: absolute,
relative and withdrawn hits are all removed under the default policy). -/
def filter_candidates (candidates : List CandIn) (disease_name : String)
    (remove_absolute : Bool := true) (remove_relative : Bool := true)
    (labels : LabelEnv := fun _ => none) : List CandOut × List CandOut :=
  if candidates.isEmpty then ([], [])
  else
    ((candidates.map (·.drug_name)).filterMap (fun n =>
        match routeOne (nameToCandidate candidates)
            (filteredNameMap candidates disease_name labels)
            remove_absolute remove_relative n with
        | Sum.inl c => some c
        | Sum.inr _ => none),
     (candidates.map (·.drug_name)).filterMap (fun n =>
        match routeOne (nameToCandidate candidates)
            (filteredNameMap candidates disease_name labels)
            remove_absolute remove_relative n with
        | Sum.inl _ => none
        | Sum.inr c => some c))

end DrugProj

namespace DrugProj

/-- A `dlookup` result is a binding present in the dict. -/
theorem dlookup_mem {α : Type} {m : List (String × α)} {k : String} {v : α}
    (h : dlookup m k = some v) : (k, v) ∈ m := by
  unfold dlookup at h
  cases hf : m.reverse.find? (fun p => p.1 == k) with
  | none => simp [hf] at h
  | some p =>
    have hp := List.find?_some hf
    have hm := List.mem_of_find?_eq_some hf
    simp [hf] at h
    rw [List.mem_reverse] at hm
    have hk : p.1 = k := by simpa using hp
    cases p
    simp_all

/-- A key bound in the dict has a `dlookup` result. -/
theorem dlookup_isSome {α : Type} {m : List (String × α)} {k : String} {v : α}
    (h : (k, v) ∈ m) : (dlookup m k).isSome := by
  unfold dlookup
  cases hf : m.reverse.find? (fun p => p.1 == k) with
  | some p => simp
  | none =>
    rw [List.find?_eq_none] at hf
    have := hf (k, v) (List.mem_reverse.mpr h)
    simp at this

/-- A key bound by no entry has no `dlookup` result. -/
theorem dlookup_eq_none {α : Type} {m : List (String × α)} {k : String}
    (h : ∀ e ∈ m, e.1 ≠ k) : dlookup m k = none := by
  unfold dlookup
  rw [List.find?_eq_none.mpr]
  · rfl
  · intro e he
    simpa using h e (List.mem_reverse.mp he)

/-- An `alookup` result is a binding present in the table. -/
theorem alookup_mem {α : Type} {m : List (String × α)} {k : String} {v : α}
    (h : alookup m k = some v) : (k, v) ∈ m := by
  unfold alookup at h
  cases hf : m.find? (fun p => p.1 == k) with
  | none => simp [hf] at h
  | some p =>
    have hp := List.find?_some hf
    have hm := List.mem_of_find?_eq_some hf
    simp [hf] at h
    have hk : p.1 = k := by simpa using hp
    cases p
    simp_all

/-- A Layer-1 hit records the original drug name. -/
theorem check_hardcoded_drug {d : String} {k : Option String} {h : FilterHit}
    (hc : check_hardcoded_contraindications d k = some h) : h.drug = d := by
  cases k with
  | none => simp [check_hardcoded_contraindications] at hc
  | some key =>
    simp only [check_hardcoded_contraindications] at hc
    cases hl : alookup CRITICAL_CONTRAINDICATIONS key with
    | none => rw [hl] at hc; simp at hc
    | some rules =>
      rw [hl] at hc
      simp only [Option.map_eq_some'] at hc
      obtain ⟨contra, _, hh⟩ := hc
      rw [← hh]
      rfl

/-- Layer-1 results depend on the drug name only through its lower-cased
form, apart from the recorded `drug` field. -/
theorem check_hardcoded_congr {d d' : String} (hdd : pyLower d = pyLower d')
    (k : Option String) :
    check_hardcoded_contraindications d' k
      = (check_hardcoded_contraindications d k).map (fun h => { h with drug := d' }) := by
  cases k with
  | none => rfl
  | some key =>
    simp only [check_hardcoded_contraindications]
    cases alookup CRITICAL_CONTRAINDICATIONS key with
    | none => rfl
    | some rules =>
      dsimp only
      rw [← hdd]
      cases rules.find? (ruleMatches (pyStrip (pyLower d))) with
      | none => rfl
      | some contra => rfl

end DrugProj

namespace DrugProj

/-- Every severity in the static contraindication table is `"absolute"` or
`"relative"`. -/
theorem table_severities :
    CRITICAL_CONTRAINDICATIONS.all (fun e =>
      e.2.all (fun r => r.severity == "absolute" || r.severity == "relative")) = true := by
  decide

/-- A Layer-1 hit carries the severity of a rule of the looked-up disease
key, hence `"absolute"` or `"relative"`. -/
theorem check_hardcoded_severity {d : String} {k : Option String} {h : FilterHit}
    (hc : check_hardcoded_contraindications d k = some h) :
    h.severity = "absolute" ∨ h.severity = "relative" := by
  cases k with
  | none => simp [check_hardcoded_contraindications] at hc
  | some key =>
    simp only [check_hardcoded_contraindications] at hc
    cases hl : alookup CRITICAL_CONTRAINDICATIONS key with
    | none => rw [hl] at hc; simp at hc
    | some rules =>
      rw [hl] at hc
      simp only [Option.map_eq_some'] at hc
      obtain ⟨contra, hfind, hh⟩ := hc
      have hmem := List.mem_of_find?_eq_some hfind
      have htab := alookup_mem hl
      have h1 := List.all_eq_true.mp table_severities (key, rules) htab
      have h2 := List.all_eq_true.mp h1 contra hmem
      rw [← hh]
      simpa [ruleHit] using h2

/-- A `sectionMention` severity is `"absolute"` or `"relative"`. -/
theorem sectionMention_severity {label : Label} {kws : List String} {s sec sev exc : String}
    (h : sectionMention label kws s = some (sec, sev, exc)) :
    sev = "absolute" ∨ sev = "relative" := by
  unfold sectionMention at h
  split at h
  · simp at h
    rcases h with ⟨-, a, -, -, hsev, -⟩
    exact Or.inl hsev.symm
  · simp at h
    rcases h with ⟨-, a, -, -, hsev, -⟩
    exact Or.inr hsev.symm

/-- A `find_disease_mention` severity is `"absolute"` or `"relative"`. -/
theorem find_disease_mention_severity {label : Label} {kws : List String}
    {sec sev exc : String}
    (h : find_disease_mention label kws = some (sec, sev, exc)) :
    sev = "absolute" ∨ sev = "relative" := by
  unfold find_disease_mention at h
  have aux : ∀ sections, scanSections label kws sections = some (sec, sev, exc) →
      sev = "absolute" ∨ sev = "relative" := by
    intro sections
    induction sections with
    | nil => intro hs; simp [scanSections] at hs
    | cons s rest ih =>
      intro hs
      cases hm : sectionMention label kws s with
      | some r =>
        simp only [scanSections, hm] at hs
        cases hs
        exact sectionMention_severity hm
      | none =>
        simp only [scanSections, hm] at hs
        exact ih hs
  exact aux LABEL_SECTIONS h

end DrugProj

namespace DrugProj

/-- Every filtered-info dict records the original drug name. -/
theorem filterDecision_drug {disease : String} {labels : LabelEnv} {d : String}
    {h : FilterHit} (hd : filterDecision disease labels d = some h) : h.drug = d := by
  unfold filterDecision at hd
  by_cases hw : WITHDRAWN_DRUGS.contains (pyLower d) = true
  · simp only [hw, if_true] at hd
    cases hd
    rfl
  · simp only [hw, Bool.false_eq_true, if_false] at hd
    cases hc : check_hardcoded_contraindications d (normalize_disease_name disease) with
    | some hit =>
      rw [hc] at hd
      cases hd
      exact check_hardcoded_drug hc
    | none =>
      rw [hc] at hd
      simp only [Option.bind_eq_some] at hd
      obtain ⟨label, _, hd⟩ := hd
      split at hd
      · simp at hd
      · simp only [Option.map_eq_some'] at hd
        obtain ⟨r, _, hh⟩ := hd
        rw [← hh]
        rfl

/-- The severity recorded for a filtered drug is `"withdrawn"`, `"absolute"`
or `"relative"`. -/
theorem filterDecision_severity {disease : String} {labels : LabelEnv} {d : String}
    {h : FilterHit} (hd : filterDecision disease labels d = some h) :
    h.severity = "withdrawn" ∨ h.severity = "absolute" ∨ h.severity = "relative" := by
  unfold filterDecision at hd
  by_cases hw : WITHDRAWN_DRUGS.contains (pyLower d) = true
  · simp only [hw, if_true] at hd
    cases hd
    exact Or.inl rfl
  · simp only [hw, Bool.false_eq_true, if_false] at hd
    cases hc : check_hardcoded_contraindications d (normalize_disease_name disease) with
    | some hit =>
      rw [hc] at hd
      cases hd
      exact Or.inr (check_hardcoded_severity hc)
    | none =>
      rw [hc] at hd
      simp only [Option.bind_eq_some] at hd
      obtain ⟨label, _, hd⟩ := hd
      split at hd
      · simp at hd
      · simp only [Option.map_eq_some'] at hd
        obtain ⟨r, hr, hh⟩ := hd
        obtain ⟨sec, sev, exc⟩ := r
        rw [← hh]
        exact Or.inr (find_disease_mention_severity hr)

/-- The Layer-2 arm of `filterDecision` depends on the drug name only
through the recorded `drug` field of the produced hit. -/
theorem layer2_congr (d d' : String) (o : Option Label) (kws : List String) :
    (o.bind (fun label => if kws.isEmpty then none
        else (find_disease_mention label kws).map (fun r => labelHit d' r.1 r.2.1 r.2.2)))
    = (o.bind (fun label => if kws.isEmpty then none
        else (find_disease_mention label kws).map (fun r => labelHit d r.1 r.2.1 r.2.2))).map
        (fun h => { h with drug := d' }) := by
  cases o with
  | none => rfl
  | some label =>
    by_cases hk : kws.isEmpty = true
    · simp [hk]
    · simp only [Option.some_bind, hk, Bool.false_eq_true, if_false]
      cases find_disease_mention label kws with
      | none => rfl
      | some r => rfl

/-- Filter decisions depend on the drug name only through its lower-cased
form, apart from the recorded `drug` field. -/
theorem filterDecision_congr {d d' : String} (hdd : pyLower d = pyLower d')
    (disease : String) (labels : LabelEnv) :
    filterDecision disease labels d'
      = (filterDecision disease labels d).map (fun h => { h with drug := d' }) := by
  unfold filterDecision
  rw [← hdd]
  by_cases hw : WITHDRAWN_DRUGS.contains (pyLower d) = true
  · simp only [hw, if_true]
    rfl
  · simp only [hw, Bool.false_eq_true, if_false]
    rw [check_hardcoded_congr hdd]
    cases check_hardcoded_contraindications d (normalize_disease_name disease) with
    | some hit => rfl
    | none => exact layer2_congr d d' _ _

end DrugProj

namespace DrugProj

/-- The severities removed under flags `(remove_absolute, remove_relative)`:
withdrawn always, absolute and relative according to their flags.  These
are exactly the removal conditions of the output loop of
`filter_candidates`. -/
def removalFlag (sev : String) (remove_absolute remove_relative : Bool) : Bool :=
  sev == "withdrawn" || (sev == "absolute" && remove_absolute)
    || (sev == "relative" && remove_relative)

/-- A looked-up filtered name whose severity triggers removal is routed to
the filtered list, with the contraindication info attached. -/
theorem routeOne_removed {ncMap : List (String × CandIn)}
    {fmap : List (String × FilterHit)} {ra rr : Bool} {n : String} {f : FilterHit}
    (hf : dlookup fmap (pyLower n) = some f)
    (hrem : removalFlag f.severity ra rr = true) :
    routeOne ncMap fmap ra rr n = Sum.inr
      { drug_name := ((dlookup ncMap (pyLower n)).getD { drug_name := n }).drug_name,
        contraindication := some f, safety_warning := none } := by
  simp only [routeOne]
  rw [hf]
  unfold removalFlag at hrem
  by_cases h1 : (f.severity == "withdrawn") = true
  · simp [h1]
  · by_cases h2 : (f.severity == "absolute" && ra) = true
    · simp [h1, h2]
    · by_cases h3 : (f.severity == "relative" && rr) = true
      · simp [h1, h2, h3]
      · simp only [Bool.or_eq_true] at hrem
        rcases hrem with (hh | hh) | hh <;> simp_all

/-- A looked-up filtered name whose severity does not trigger removal is
kept in the safe list with the warning text attached. -/
theorem routeOne_kept {ncMap : List (String × CandIn)}
    {fmap : List (String × FilterHit)} {ra rr : Bool} {n : String} {f : FilterHit}
    (hf : dlookup fmap (pyLower n) = some f)
    (hrem : removalFlag f.severity ra rr = false) :
    routeOne ncMap fmap ra rr n = Sum.inl
      { drug_name := ((dlookup ncMap (pyLower n)).getD { drug_name := n }).drug_name,
        contraindication := some f, safety_warning := some f.reason } := by
  simp only [routeOne]
  rw [hf]
  unfold removalFlag at hrem
  simp only [Bool.or_eq_false_iff] at hrem
  obtain ⟨⟨h1, h2⟩, h3⟩ := hrem
  simp [h1, h2, h3]

/-- A name with no filtered entry passes through clean. -/
theorem routeOne_safe {ncMap : List (String × CandIn)}
    {fmap : List (String × FilterHit)} {ra rr : Bool} {n : String}
    (hf : dlookup fmap (pyLower n) = none) :
    routeOne ncMap fmap ra rr n = Sum.inl
      { drug_name := ((dlookup ncMap (pyLower n)).getD { drug_name := n }).drug_name,
        contraindication := none, safety_warning := none } := by
  simp only [routeOne]
  rw [hf]

/-- The candidate resolved for a key lowers back to that key. -/
theorem nameToCandidate_lower {candidates : List CandIn} {n : String} :
    pyLower ((dlookup (nameToCandidate candidates) (pyLower n)).getD
      { drug_name := n }).drug_name = pyLower n := by
  cases hl : dlookup (nameToCandidate candidates) (pyLower n) with
  | none => simp
  | some c =>
    have hm := dlookup_mem hl
    unfold nameToCandidate at hm
    rw [List.mem_map] at hm
    obtain ⟨c', hc', he⟩ := hm
    have h1 : pyLower c'.drug_name = pyLower n := congrArg Prod.fst he
    have h2 : c' = c := congrArg Prod.snd he
    subst h2
    simpa using h1

/-- A filtered-name-map entry comes from the decision of some input name
with the same lower-cased form. -/
theorem filteredNameMap_some {candidates : List CandIn} {disease : String}
    {labels : LabelEnv} {key : String} {f : FilterHit}
    (hl : dlookup (filteredNameMap candidates disease labels) key = some f) :
    ∃ d ∈ candidates.map (·.drug_name), pyLower d = key ∧
      filterDecision disease labels d = some f := by
  have hm := dlookup_mem hl
  unfold filteredNameMap at hm
  rw [List.mem_map] at hm
  obtain ⟨f', hf', he⟩ := hm
  obtain ⟨hk, hf⟩ := Prod.mk.injEq .. ▸ he
  unfold async_filter at hf'
  rw [List.mem_filterMap] at hf'
  obtain ⟨d, hd, hdec⟩ := hf'
  subst hf
  exact ⟨d, hd, by rw [← hk, filterDecision_drug hdec], hdec⟩

/-- A name whose decision filters it has an entry in the filtered name
map. -/
theorem filteredNameMap_isSome {candidates : List CandIn} {disease : String}
    {labels : LabelEnv} {d : String} {f : FilterHit}
    (hd : d ∈ candidates.map (·.drug_name))
    (hdec : filterDecision disease labels d = some f) :
    (dlookup (filteredNameMap candidates disease labels) (pyLower d)).isSome := by
  apply dlookup_isSome (v := f)
  unfold filteredNameMap
  rw [List.mem_map]
  refine ⟨f, ?_, by rw [filterDecision_drug hdec]⟩
  unfold async_filter
  rw [List.mem_filterMap]
  exact ⟨d, hd, hdec⟩

/-- A name whose decision passes it through has no entry in the filtered
name map. -/
theorem filteredNameMap_none {candidates : List CandIn} {disease : String}
    {labels : LabelEnv} {n : String}
    (hdec : filterDecision disease labels n = none) :
    dlookup (filteredNameMap candidates disease labels) (pyLower n) = none := by
  apply dlookup_eq_none
  intro e he hk
  unfold filteredNameMap at he
  rw [List.mem_map] at he
  obtain ⟨f, hf, hef⟩ := he
  unfold async_filter at hf
  rw [List.mem_filterMap] at hf
  obtain ⟨d, _, hdecd⟩ := hf
  have hkey : pyLower d = pyLower n := by
    have : e.1 = pyLower f.drug := by rw [← hef]
    rw [filterDecision_drug hdecd] at this
    rw [← this, hk]
  have := filterDecision_congr hkey disease labels
  rw [hdec, hdecd] at this
  simp at this

end DrugProj

namespace DrugProj

/-- A candidate whose filter decision has a removal-triggering severity is
represented in the filtered output list of `filter_candidates`, with
matching severity and reason attached. -/
theorem filtered_mem_of_decision {candidates : List CandIn} {disease : String}
    {ra rr : Bool} {labels : LabelEnv} {c : CandIn} (hc : c ∈ candidates)
    {h : FilterHit} (hdec : filterDecision disease labels c.drug_name = some h)
    (hrem : removalFlag h.severity ra rr = true) :
    ∃ out ∈ (filter_candidates candidates disease ra rr labels).2,
      pyLower out.drug_name = pyLower c.drug_name ∧
      ∃ f, out.contraindication = some f ∧ f.severity = h.severity
        ∧ f.reason = h.reason := by
  have hn : c.drug_name ∈ candidates.map (·.drug_name) :=
    List.mem_map_of_mem _ hc
  have hne : candidates.isEmpty = false := by
    cases candidates with
    | nil => simp at hc
    | cons a l => rfl
  have hsome := filteredNameMap_isSome hn hdec
  cases hl : dlookup (filteredNameMap candidates disease labels) (pyLower c.drug_name) with
  | none => rw [hl] at hsome; simp at hsome
  | some f =>
    obtain ⟨d, hd, hdl, hdecd⟩ := filteredNameMap_some hl
    have hcongr := @filterDecision_congr d c.drug_name hdl disease labels
    rw [hdec, hdecd] at hcongr
    have hfh : h = { f with drug := c.drug_name } := by
      simpa using hcongr
    have hsev : f.severity = h.severity := by rw [hfh]
    have hreas : f.reason = h.reason := by rw [hfh]
    have hroute := @routeOne_removed (nameToCandidate candidates) _ ra rr _ _
      hl (by rw [hsev]; exact hrem)
    refine ⟨⟨((dlookup (nameToCandidate candidates) (pyLower c.drug_name)).getD { drug_name := c.drug_name }).drug_name, some f, none⟩,
      ?_, nameToCandidate_lower, f, rfl, hsev, hreas⟩
    unfold filter_candidates
    rw [hne]
    simp only [Bool.false_eq_true, if_false]
    rw [List.mem_filterMap]
    exact ⟨c.drug_name, hn, by rw [hroute]⟩

/-- A candidate whose filter decision matched but whose severity is not
removed under the flags is kept in the safe list, with the warning text
attached. -/
theorem safe_mem_of_decision_kept {candidates : List CandIn} {disease : String}
    {ra rr : Bool} {labels : LabelEnv} {c : CandIn} (hc : c ∈ candidates)
    {h : FilterHit} (hdec : filterDecision disease labels c.drug_name = some h)
    (hrem : removalFlag h.severity ra rr = false) :
    ∃ out ∈ (filter_candidates candidates disease ra rr labels).1,
      pyLower out.drug_name = pyLower c.drug_name ∧
      out.safety_warning = some h.reason ∧
      ∃ f, out.contraindication = some f ∧ f.severity = h.severity := by
  have hn : c.drug_name ∈ candidates.map (·.drug_name) :=
    List.mem_map_of_mem _ hc
  have hne : candidates.isEmpty = false := by
    cases candidates with
    | nil => simp at hc
    | cons a l => rfl
  have hsome := filteredNameMap_isSome hn hdec
  cases hl : dlookup (filteredNameMap candidates disease labels) (pyLower c.drug_name) with
  | none => rw [hl] at hsome; simp at hsome
  | some f =>
    obtain ⟨d, hd, hdl, hdecd⟩ := filteredNameMap_some hl
    have hcongr := @filterDecision_congr d c.drug_name hdl disease labels
    rw [hdec, hdecd] at hcongr
    have hfh : h = { f with drug := c.drug_name } := by
      simpa using hcongr
    have hsev : f.severity = h.severity := by rw [hfh]
    have hreas : f.reason = h.reason := by rw [hfh]
    have hroute := @routeOne_kept (nameToCandidate candidates) _ ra rr _ _
      hl (by rw [hsev]; exact hrem)
    refine ⟨⟨((dlookup (nameToCandidate candidates) (pyLower c.drug_name)).getD { drug_name := c.drug_name }).drug_name, some f, some f.reason⟩,
      ?_, nameToCandidate_lower, by simp [hreas], f, rfl, hsev⟩
    unfold filter_candidates
    rw [hne]
    simp only [Bool.false_eq_true, if_false]
    rw [List.mem_filterMap]
    exact ⟨c.drug_name, hn, by rw [hroute]⟩

/-- A candidate whose filter decision passes it through appears in the safe
list with no contraindication attached. -/
theorem safe_mem_of_decision_none {candidates : List CandIn} {disease : String}
    {ra rr : Bool} {labels : LabelEnv} {c : CandIn} (hc : c ∈ candidates)
    (hdec : filterDecision disease labels c.drug_name = none) :
    ∃ out ∈ (filter_candidates candidates disease ra rr labels).1,
      pyLower out.drug_name = pyLower c.drug_name ∧
      out.contraindication = none ∧ out.safety_warning = none := by
  have hn : c.drug_name ∈ candidates.map (·.drug_name) :=
    List.mem_map_of_mem _ hc
  have hne : candidates.isEmpty = false := by
    cases candidates with
    | nil => simp at hc
    | cons a l => rfl
  have hl : dlookup (filteredNameMap candidates disease labels)
      (pyLower c.drug_name) = none := filteredNameMap_none hdec
  have hroute := @routeOne_safe (nameToCandidate candidates) _ ra rr _ hl
  refine ⟨⟨((dlookup (nameToCandidate candidates) (pyLower c.drug_name)).getD { drug_name := c.drug_name }).drug_name, none, none⟩,
    ?_, nameToCandidate_lower, rfl, rfl⟩
  unfold filter_candidates
  rw [hne]
  simp only [Bool.false_eq_true, if_false]
  rw [List.mem_filterMap]
  exact ⟨c.drug_name, hn, by rw [hroute]⟩

end DrugProj

namespace DrugProj

/-- C1 counterexample: under the default policy (both removal flags default
to `True` in the source), a candidate matching only a *relative* rule —
lithium for the disease "parkinson" — is placed in the removed list with
severity `"relative"`, and the safe list is empty; the claim instead says
the default policy keeps relative matches in the safe list with a warning. -/
theorem c1_counterexample :
    filter_candidates [{ drug_name := "lithium" }] "parkinson" true true (fun _ => none)
      = ([], [⟨"lithium",
          some ⟨"lithium",
            "Lithium can worsen parkinsonian tremor and cause drug-induced parkinsonism.",
            "relative", "clinical_contraindications_db", "warnings_and_precautions"⟩,
          none⟩]) := by
  decide

/-- C1 (amended): under the default policy (`remove_absolute = True`,
`remove_relative = True`), every candidate whose two-layer decision matched
— withdrawn, absolute or relative — is placed in the removed list with the
matching severity attached, and every unmatched candidate is in the safe
list; a relative match is kept in the safe list with an attached safety
warning only when the caller passes `remove_relative = False`. -/
theorem c1_default_policy (candidates : List CandIn) (disease : String)
    (labels : LabelEnv) (c : CandIn) (hc : c ∈ candidates) :
    (∀ h, filterDecision disease labels c.drug_name = some h →
      ∃ out ∈ (filter_candidates candidates disease true true labels).2,
        pyLower out.drug_name = pyLower c.drug_name ∧
        ∃ f, out.contraindication = some f ∧ f.severity = h.severity) ∧
    (filterDecision disease labels c.drug_name = none →
      ∃ out ∈ (filter_candidates candidates disease true true labels).1,
        pyLower out.drug_name = pyLower c.drug_name ∧ out.contraindication = none) ∧
    (∀ h, filterDecision disease labels c.drug_name = some h →
      h.severity = "relative" →
      ∃ out ∈ (filter_candidates candidates disease true false labels).1,
        pyLower out.drug_name = pyLower c.drug_name ∧
        out.safety_warning = some h.reason) := by
  refine ⟨?_, ?_, ?_⟩
  · intro h hdec
    have hrem : removalFlag h.severity true true = true := by
      rcases filterDecision_severity hdec with hs | hs | hs <;>
        simp [removalFlag, hs]
    obtain ⟨out, hmem, hlow, f, hcf, hsev, -⟩ :=
      filtered_mem_of_decision hc hdec hrem
    exact ⟨out, hmem, hlow, f, hcf, hsev⟩
  · intro hdec
    obtain ⟨out, hmem, hlow, hcf, -⟩ :=
      @safe_mem_of_decision_none candidates disease true true labels c hc hdec
    exact ⟨out, hmem, hlow, hcf⟩
  · intro h hdec hsev
    have hrem : removalFlag h.severity true false = false := by
      simp [removalFlag, hsev]
    obtain ⟨out, hmem, hlow, hwarn, -⟩ :=
      safe_mem_of_decision_kept hc hdec hrem
    exact ⟨out, hmem, hlow, hwarn⟩

/-- Witness for C1 (amended) at a concrete input: "Lithium" for
"parkinson" is removed (severity relative) under the default policy and
kept with the rule's warning text when `remove_relative = False`. -/
theorem c1_default_policy_witness :
    (∃ out ∈ (filter_candidates [{ drug_name := "Lithium" }] "parkinson"
        true true (fun _ => none)).2,
      pyLower out.drug_name = pyLower "Lithium" ∧
      ∃ f, out.contraindication = some f ∧ f.severity = "relative") ∧
    (∃ out ∈ (filter_candidates [{ drug_name := "Lithium" }] "parkinson"
        true false (fun _ => none)).1,
      pyLower out.drug_name = pyLower "Lithium" ∧
      out.safety_warning = some "Lithium can worsen parkinsonian tremor and cause drug-induced parkinsonism.") := by
  have hdec : filterDecision "parkinson" (fun _ => none) "Lithium"
      = some ⟨"Lithium",
          "Lithium can worsen parkinsonian tremor and cause drug-induced parkinsonism.",
          "relative", "clinical_contraindications_db", "warnings_and_precautions"⟩ := by decide
  have h := c1_default_policy [{ drug_name := "Lithium" }] "parkinson"
    (fun _ => none) { drug_name := "Lithium" } (by decide)
  exact ⟨h.1 _ hdec, h.2.2 _ hdec rfl⟩

end DrugProj

namespace DrugProj

/-- C4: for every disease name (whether or not it normalizes to a key with
rules) and every setting of the removal flags, a candidate whose
lower-cased name is in the static withdrawn set is placed in the removed
list by `filter_candidates`, with severity `"withdrawn"`. -/
theorem c4_withdrawn_always_removed (candidates : List CandIn) (disease : String)
    (ra rr : Bool) (labels : LabelEnv) (c : CandIn) (hc : c ∈ candidates)
    (hw : WITHDRAWN_DRUGS.contains (pyLower c.drug_name) = true) :
    ∃ out ∈ (filter_candidates candidates disease ra rr labels).2,
      pyLower out.drug_name = pyLower c.drug_name ∧
      ∃ f, out.contraindication = some f ∧ f.severity = "withdrawn" := by
  have hdec : filterDecision disease labels c.drug_name
      = some (withdrawnHit c.drug_name) := by
    simp only [filterDecision, hw, if_true]
  have hrem : removalFlag (withdrawnHit c.drug_name).severity ra rr = true := by
    simp [removalFlag, withdrawnHit]
  obtain ⟨out, hmem, hlow, f, hcf, hsev, -⟩ :=
    filtered_mem_of_decision hc hdec hrem
  exact ⟨out, hmem, hlow, f, hcf, hsev⟩

/-- Witness for C4: the withdrawn drug "Troglitazone" is removed even for an
unknown disease and with both removal flags off. -/
theorem c4_witness :
    ∃ out ∈ (filter_candidates [{ drug_name := "Troglitazone" }] "no such disease"
        false false (fun _ => none)).2,
      pyLower out.drug_name = pyLower "Troglitazone" ∧
      ∃ f, out.contraindication = some f ∧ f.severity = "withdrawn" :=
  c4_withdrawn_always_removed [{ drug_name := "Troglitazone" }] "no such disease"
    false false (fun _ => none) { drug_name := "Troglitazone" }
    (by decide) (by decide)

/-- `frag` is a fragment of an absolute rule configured for the disease key
`key`: the hypothesis of C3. -/
def ruleMemAbs (key frag : String) : Bool :=
  match alookup CRITICAL_CONTRAINDICATIONS key with
  | some rules => rules.any (fun r => r.severity == "absolute" && r.drugs.contains frag)
  | none => false

/-- Table-wide check backing C3: every fragment of every absolute rule is
already lower-case, is not in the withdrawn set, and — first match wins —
resolves through `_check_hardcoded_contraindications` to severity
`"absolute"` for its own disease key. -/
theorem abs_fragments_resolve_absolute :
    CRITICAL_CONTRAINDICATIONS.all (fun e =>
      e.2.all (fun r =>
        r.severity != "absolute" ||
        r.drugs.all (fun frag =>
          pyLower frag == frag && !WITHDRAWN_DRUGS.contains frag &&
          ((check_hardcoded_contraindications frag (some e.1)).map (·.severity)
            == some "absolute")))) = true := by
  decide

end DrugProj

namespace DrugProj

/-- C3: a candidate whose lower-cased name equals a fragment of an
*absolute* rule configured for the normalized disease key is placed in the
removed list by `filter_candidates` whenever `remove_absolute = True`, with
severity `"absolute"` attached, for every Layer-2 label environment and
every setting of `remove_relative`. -/
theorem c3_absolute_fragment_removed (key frag disease : String)
    (candidates : List CandIn) (rr : Bool) (labels : LabelEnv) (c : CandIn)
    (hmem : ruleMemAbs key frag = true)
    (hnorm : normalize_disease_name disease = some key)
    (hc : c ∈ candidates)
    (hlow : pyLower c.drug_name = frag) :
    ∃ out ∈ (filter_candidates candidates disease true rr labels).2,
      pyLower out.drug_name = pyLower c.drug_name ∧
      ∃ f, out.contraindication = some f ∧ f.severity = "absolute" := by
  unfold ruleMemAbs at hmem
  cases halo : alookup CRITICAL_CONTRAINDICATIONS key with
  | none => rw [halo] at hmem; simp at hmem
  | some rules =>
    rw [halo] at hmem
    obtain ⟨r, hr, hcond⟩ := List.any_eq_true.mp hmem
    rw [Bool.and_eq_true] at hcond
    have hsevr : r.severity = "absolute" := by simpa using hcond.1
    have hfragmem : frag ∈ r.drugs := by simpa using hcond.2
    have htab := alookup_mem halo
    have master := List.all_eq_true.mp abs_fragments_resolve_absolute (key, rules) htab
    have inner := List.all_eq_true.mp master r hr
    rw [Bool.or_eq_true] at inner
    rcases inner with hbad | hall
    · rw [bne_iff_ne] at hbad
      exact absurd hsevr hbad
    · have facts := List.all_eq_true.mp hall frag hfragmem
      rw [Bool.and_eq_true, Bool.and_eq_true] at facts
      obtain ⟨⟨hfl', hnw'⟩, hcs'⟩ := facts
      have hfl : pyLower frag = frag := by simpa using hfl'
      have hnw : WITHDRAWN_DRUGS.contains frag = false := by simpa using hnw'
      have hcs : (check_hardcoded_contraindications frag (some key)).map (·.severity)
          = some "absolute" := by simpa using hcs'
      obtain ⟨f0, hf0, hf0sev⟩ := Option.map_eq_some'.mp hcs
      have hwc : WITHDRAWN_DRUGS.contains (pyLower c.drug_name) = false := by
        rw [hlow]; exact hnw
      have hdd : pyLower frag = pyLower c.drug_name := by rw [hlow, hfl]
      have hchk : check_hardcoded_contraindications c.drug_name
          (normalize_disease_name disease) = some { f0 with drug := c.drug_name } := by
        rw [hnorm, check_hardcoded_congr hdd, hf0]
        rfl
      have hdec : filterDecision disease labels c.drug_name
          = some { f0 with drug := c.drug_name } := by
        simp only [filterDecision, hwc, Bool.false_eq_true, if_false, hchk]
      have hrem : removalFlag ({ f0 with drug := c.drug_name } : FilterHit).severity
          true rr = true := by
        simp [removalFlag, hf0sev]
      obtain ⟨out, hmemo, hlowo, f, hcf, hsev, -⟩ :=
        filtered_mem_of_decision hc hdec hrem
      refine ⟨out, hmemo, hlowo, f, hcf, ?_⟩
      rw [hsev]
      simpa using hf0sev

/-- Witness for C3: the fragment "haloperidol" of the first absolute
parkinson rule removes candidate "Haloperidol" for the disease name
"Parkinson Disease", with `remove_relative = False` and a label environment
that reports a label for every drug. -/
theorem c3_witness :
    ∃ out ∈ (filter_candidates [{ drug_name := "Haloperidol" }] "Parkinson Disease"
        true false (fun _ => some ⟨"mentions parkinson", "", "", ""⟩)).2,
      pyLower out.drug_name = pyLower "Haloperidol" ∧
      ∃ f, out.contraindication = some f ∧ f.severity = "absolute" :=
  c3_absolute_fragment_removed "parkinson" "haloperidol" "Parkinson Disease"
    [{ drug_name := "Haloperidol" }] false
    (fun _ => some ⟨"mentions parkinson", "", "", ""⟩)
    { drug_name := "Haloperidol" }
    (by decide) (by decide) (by decide) (by decide)

end DrugProj

namespace DrugProj

/-- The best-match length never decreases during the fragment scan. -/
theorem bestStep_le (lower : String) (acc : Option String × Nat) (fk : String × String) :
    acc.2 ≤ (bestStep lower acc fk).2 := by
  unfold bestStep
  split
  · rename_i hcond
    rw [Bool.and_eq_true] at hcond
    exact le_of_lt (of_decide_eq_true hcond.2)
  · exact le_refl _

/-- The best-match length never decreases across the whole scan. -/
theorem foldl_best_le (lower : String) :
    ∀ (R : List (String × String)) (acc : Option String × Nat),
      acc.2 ≤ (R.foldl (bestStep lower) acc).2 := by
  intro R
  induction R with
  | nil => intro acc; exact le_refl _
  | cons a R ih =>
    intro acc
    exact le_trans (bestStep_le lower acc a) (ih (bestStep lower acc a))

/-- Every matching fragment's length is dominated by the final best-match
length. -/
theorem foldl_best_dom (lower : String) :
    ∀ (R : List (String × String)) (acc : Option String × Nat)
      (fk : String × String), fk ∈ R → strIn fk.1 lower = true →
      fk.1.length ≤ (R.foldl (bestStep lower) acc).2 := by
  intro R
  induction R with
  | nil => intro acc fk h; simp at h
  | cons a R ih =>
    intro acc fk hmem hin
    rw [List.mem_cons] at hmem
    rcases hmem with rfl | hmem
    · by_cases hcond : (strIn fk.1 lower && decide (acc.2 < fk.1.length)) = true
      · have hstep : (bestStep lower acc fk).2 = fk.1.length := by
          unfold bestStep; rw [if_pos hcond]
        calc fk.1.length = (bestStep lower acc fk).2 := hstep.symm
          _ ≤ _ := foldl_best_le lower R _
      · have hstep : bestStep lower acc fk = acc := by
          unfold bestStep; rw [if_neg hcond]
        have hle : fk.1.length ≤ acc.2 := by
          rw [hin] at hcond
          simp only [Bool.true_and, decide_eq_true_eq] at hcond
          omega
        calc fk.1.length ≤ acc.2 := hle
          _ = (bestStep lower acc fk).2 := by rw [hstep]
          _ ≤ _ := foldl_best_le lower R _
    · exact ih (bestStep lower acc a) fk hmem hin

/-- The scan result is either the initial accumulator or the key/length of
some matching fragment. -/
theorem foldl_best_provenance (lower : String) :
    ∀ (R : List (String × String)) (acc : Option String × Nat),
      R.foldl (bestStep lower) acc = acc ∨
      ∃ fk ∈ R, strIn fk.1 lower = true ∧
        R.foldl (bestStep lower) acc = (some fk.2, fk.1.length) := by
  intro R
  induction R with
  | nil => intro acc; exact Or.inl rfl
  | cons a R ih =>
    intro acc
    rcases ih (bestStep lower acc a) with heq | ⟨fk, hfk, hin, heq⟩
    · by_cases hcond : (strIn a.1 lower && decide (acc.2 < a.1.length)) = true
      · refine Or.inr ⟨a, List.mem_cons_self a R, ?_, ?_⟩
        · exact (Bool.and_eq_true .. ▸ hcond).1
        · show R.foldl (bestStep lower) (bestStep lower acc a) = _
          rw [heq]
          unfold bestStep
          rw [if_pos hcond]
      · left
        show R.foldl (bestStep lower) (bestStep lower acc a) = acc
        rw [heq]
        unfold bestStep
        rw [if_neg hcond]
    · exact Or.inr ⟨fk, List.mem_cons_of_mem a hfk, hin, heq⟩

end DrugProj

namespace DrugProj

/-- C8: disease-name normalization lower-cases and strips the input; an
input that equals a canonical key of the rule tables is used as-is;
otherwise the canonical key of a longest matching alias fragment is chosen
(`None` when no fragment occurs in the input); and "Parkinson's Disease",
"parkinsonism" and "parkinson" all normalize to the key "parkinson". -/
theorem c8_normalization (s : String) :
    (((alookup CRITICAL_CONTRAINDICATIONS (pyStrip (pyLower s))).isSome
        || (alookup DISEASE_KEYWORDS (pyStrip (pyLower s))).isSome) = true →
      normalize_disease_name s = some (pyStrip (pyLower s))) ∧
    (((alookup CRITICAL_CONTRAINDICATIONS (pyStrip (pyLower s))).isSome
        || (alookup DISEASE_KEYWORDS (pyStrip (pyLower s))).isSome) = false →
      ((∀ fk ∈ DISEASE_NAME_MAP, strIn fk.1 (pyStrip (pyLower s)) = false) →
        normalize_disease_name s = none) ∧
      (∀ k, normalize_disease_name s = some k →
        ∃ fk ∈ DISEASE_NAME_MAP, strIn fk.1 (pyStrip (pyLower s)) = true ∧ fk.2 = k ∧
          ∀ fk' ∈ DISEASE_NAME_MAP, strIn fk'.1 (pyStrip (pyLower s)) = true →
            fk'.1.length ≤ fk.1.length)) ∧
    (normalize_disease_name "Parkinson\x27s Disease" = some "parkinson" ∧
     normalize_disease_name "parkinsonism" = some "parkinson" ∧
     normalize_disease_name "parkinson" = some "parkinson") := by
  refine ⟨?_, ?_, by decide, by decide, by decide⟩
  · intro hex
    simp only [normalize_disease_name]
    rw [Bool.or_eq_true] at hex
    rcases hex with h | h
    · rw [if_pos h]
    · by_cases h1 : (alookup CRITICAL_CONTRAINDICATIONS (pyStrip (pyLower s))).isSome = true
      · rw [if_pos h1]
      · rw [if_neg h1, if_pos h]
  · intro hex
    rw [Bool.or_eq_false_iff] at hex
    obtain ⟨h1, h2⟩ := hex
    constructor
    · intro hnone
      simp only [normalize_disease_name]
      rw [if_neg (by simp [h1]), if_neg (by simp [h2])]
      rcases foldl_best_provenance (pyStrip (pyLower s)) DISEASE_NAME_MAP
          ((none : Option String), 0) with heq | ⟨fk, hfk, hin, heq⟩
      · rw [heq]
      · rw [hnone fk hfk] at hin
        simp at hin
    · intro k hk
      simp only [normalize_disease_name] at hk
      rw [if_neg (by simp [h1]), if_neg (by simp [h2])] at hk
      rcases foldl_best_provenance (pyStrip (pyLower s)) DISEASE_NAME_MAP
          ((none : Option String), 0) with heq | ⟨fk, hfk, hin, heq⟩
      · rw [heq] at hk
        simp at hk
      · rw [heq] at hk
        refine ⟨fk, hfk, hin, by simpa using hk, ?_⟩
        intro fk' hfk' hin'
        have hd := foldl_best_dom (pyStrip (pyLower s)) DISEASE_NAME_MAP
          ((none : Option String), 0) fk' hfk' hin'
        rw [heq] at hd
        simpa using hd

/-- Witness for C8: "  ASTHMA " normalizes by the exact-key path, and the
key chosen for "parkinsonism" comes from a longest matching fragment. -/
theorem c8_witness :
    normalize_disease_name "  ASTHMA " = some "asthma" ∧
    ∃ fk ∈ DISEASE_NAME_MAP, strIn fk.1 (pyStrip (pyLower "parkinsonism")) = true ∧
      fk.2 = "parkinson" ∧
      ∀ fk' ∈ DISEASE_NAME_MAP, strIn fk'.1 (pyStrip (pyLower "parkinsonism")) = true →
        fk'.1.length ≤ fk.1.length := by
  constructor
  · have h := (c8_normalization "  ASTHMA ").1
    have he : pyStrip (pyLower "  ASTHMA ") = "asthma" := by decide
    rw [← he]
    exact h (by decide)
  · exact ((c8_normalization "parkinsonism").2.1 (by decide)).2 "parkinson" (by decide)

end DrugProj

namespace DrugProj

/-- Every gene in the static pathway table maps to a nonempty pathway
list. -/
theorem pathway_map_nonempty :
    pathway_map.all (fun e => !e.2.isEmpty) = true := by
  decide

/-- C6 counterexample: for a gene list with no known gene the Pathway
Mapper returns the static two-element fallback list, not a single fallback
pathway name as the claim states. -/
theorem c6_counterexample :
    map_genes_to_pathways ["FOO"] = ["General cellular signaling", "Metabolic pathways"] ∧
    (map_genes_to_pathways ["FOO"]).length = 2 := by
  decide

/-- C6 (amended): for every ordered sequence of gene symbols in which no
gene is in the static table, the Pathway Mapper returns the static
*two-element* fallback list `["General cellular signaling", "Metabolic
pathways"]` rather than an empty set; for sequences containing at least one
known gene it returns exactly the union of the table's pathway sets for the
input genes, ignoring unknown genes; the function is total, with no failure
mode for any input. -/
theorem c6_pathway_mapper :
    (∀ genes : List String, (∀ g ∈ genes, alookup pathway_map g = none) →
      map_genes_to_pathways genes
        = ["General cellular signaling", "Metabolic pathways"]) ∧
    (∀ genes : List String, (∃ g ∈ genes, (alookup pathway_map g).isSome) →
      ∀ x, x ∈ map_genes_to_pathways genes ↔
        ∃ g ∈ genes, x ∈ (alookup pathway_map g).getD []) := by
  constructor
  · intro genes hnone
    have hflat : genes.flatMap (fun g => (alookup pathway_map g).getD []) = [] := by
      apply List.flatMap_eq_nil_iff.mpr
      intro g hg
      rw [hnone g hg]
      rfl
    simp only [map_genes_to_pathways, hflat]
    rfl
  · intro genes hsome x
    obtain ⟨g0, hg0, hs0⟩ := hsome
    cases hl0 : alookup pathway_map g0 with
    | none => rw [hl0] at hs0; simp at hs0
    | some ps0 =>
      have hne : ps0 ≠ [] := by
        have hm := alookup_mem hl0
        have := List.all_eq_true.mp pathway_map_nonempty (g0, ps0) hm
        simpa [List.isEmpty_iff] using this
      obtain ⟨p0, hp0⟩ := List.exists_mem_of_ne_nil ps0 hne
      have hmem0 : p0 ∈ genes.flatMap (fun g => (alookup pathway_map g).getD []) := by
        rw [List.mem_flatMap]
        exact ⟨g0, hg0, by rw [hl0]; exact hp0⟩
      have hflatne : (genes.flatMap (fun g => (alookup pathway_map g).getD [])).dedup.isEmpty = false := by
        rcases hd : (genes.flatMap (fun g => (alookup pathway_map g).getD [])).dedup with _ | _
        · rw [← List.mem_dedup (a := p0)] at hmem0
          rw [hd] at hmem0
          simp at hmem0
        · rfl
      simp only [map_genes_to_pathways, hflatne, Bool.false_eq_true, if_false]
      rw [sortStrings, List.mem_insertionSort, List.mem_dedup, List.mem_flatMap]

/-- Witness for C6 (amended): a list with no known gene gets the fallback,
and "Autophagy" is in the mapped set of `["GBA", "XYZ"]` because GBA maps
to it. -/
theorem c6_witness :
    map_genes_to_pathways ["BAR", "FOO"]
      = ["General cellular signaling", "Metabolic pathways"] ∧
    "Autophagy" ∈ map_genes_to_pathways ["GBA", "XYZ"] := by
  constructor
  · exact c6_pathway_mapper.1 ["BAR", "FOO"] (by decide)
  · exact (c6_pathway_mapper.2 ["GBA", "XYZ"] ⟨"GBA", by decide, by decide⟩
      "Autophagy").mpr ⟨"GBA", by decide, by decide⟩

end DrugProj

namespace DrugProj

/-- `round(x, 4)` is the identity on values that are exact multiples of
`1/10000`. -/
theorem pyRound4_eq_self {x : ℚ} {n : ℤ} (h : x * 10000 = n) : pyRound4 x = x := by
  have hri : pyRoundInt (x * 10000) = n := by
    unfold pyRoundInt
    simp only [h, Int.floor_intCast, sub_self]
    rw [if_pos (by norm_num)]
  unfold pyRound4
  rw [hri]
  field_simp
  linarith [h]

/-- The centrality formula value is always an exact multiple of `1/10000`. -/
theorem graph_formula_int (l : Nat) :
    ∃ n : ℤ, (max 0 (1 - ((l : ℚ) - 1) * (2/10))) * 10000 = n := by
  by_cases h : (1 - ((l : ℚ) - 1) * (2/10)) ≤ 0
  · exact ⟨0, by rw [max_eq_left h]; norm_num⟩
  · refine ⟨12000 - 2000 * l, ?_⟩
    rw [max_eq_right (le_of_lt (lt_of_not_le h))]
    push_cast
    ring

/-- C5 counterexample: in the graph disease—gene—drug the shortest path has
length 2 (a 2-hop connection through one shared gene), but the
graph-centrality score is 0.8, not 1.0 as the claim states. -/
theorem c5_counterexample :
    KGraph.spl ⟨[], [("d", "g"), ("x", "g")]⟩ "d" "x" = some 2 ∧
    compute_graph_score ⟨[], [("d", "g"), ("x", "g")]⟩ "d" "x" = 8/10 ∧
    (8/10 : ℚ) ≠ 1 := by
  refine ⟨by decide, ?_, by norm_num⟩
  have h1 : KGraph.hasNode ⟨[], [("d", "g"), ("x", "g")]⟩ "d" = true := by decide
  have h2 : KGraph.hasNode ⟨[], [("d", "g"), ("x", "g")]⟩ "x" = true := by decide
  have h3 : KGraph.spl ⟨[], [("d", "g"), ("x", "g")]⟩ "d" "x" = some 2 := by decide
  simp only [compute_graph_score, h1, h2, h3, Bool.not_true, Bool.or_self,
    Bool.false_eq_true, if_false]
  have hmax : (max 0 (1 - ((2 : Nat) - 1 : ℚ) * (2/10))) = 8/10 := by
    norm_num
  rw [hmax]
  rw [pyRound4_eq_self (n := 8000) (by norm_num)]

/-- C5 (amended): for both nodes present and a path of length `l`, the
graph-centrality score equals `max(0, 1 - (l - 1) * 0.2)` exactly (the
4-decimal rounding is the identity on these values); a 2-hop connection
(one shared gene or pathway) scores 0.8, each additional hop subtracting
0.2; and a drug node absent from the graph scores 0. -/
theorem c5_graph_score (G : KGraph) (dname did : String) :
    (∀ l : Nat, G.hasNode dname = true → G.hasNode did = true →
      G.spl dname did = some l →
      compute_graph_score G dname did = max 0 (1 - ((l : ℚ) - 1) * (2/10))) ∧
    (G.hasNode dname = true → G.hasNode did = true → G.spl dname did = some 2 →
      compute_graph_score G dname did = 8/10) ∧
    (G.hasNode did = false → compute_graph_score G dname did = 0) := by
  have hmain : ∀ l : Nat, G.hasNode dname = true → G.hasNode did = true →
      G.spl dname did = some l →
      compute_graph_score G dname did = max 0 (1 - ((l : ℚ) - 1) * (2/10)) := by
    intro l h1 h2 hspl
    simp only [compute_graph_score, h1, h2, hspl, Bool.not_true, Bool.or_self,
      Bool.false_eq_true, if_false]
    obtain ⟨n, hn⟩ := graph_formula_int l
    exact pyRound4_eq_self hn
  refine ⟨hmain, ?_, ?_⟩
  · intro h1 h2 hspl
    rw [hmain 2 h1 h2 hspl]
    norm_num
  · intro h2
    simp only [compute_graph_score, h2]
    rw [if_pos (by simp)]

/-- Witness for C5 (amended) on a 3-hop chain: score 0.6 by the formula,
plus the absent-node case. -/
theorem c5_witness :
    compute_graph_score ⟨[], [("d", "g"), ("g", "p"), ("x", "p")]⟩ "d" "x"
      = max 0 (1 - ((3 : Nat) - 1 : ℚ) * (2/10)) ∧
    compute_graph_score ⟨[], [("d", "g")]⟩ "d" "x" = 0 := by
  constructor
  · exact (c5_graph_score ⟨[], [("d", "g"), ("g", "p"), ("x", "p")]⟩ "d" "x").1 3
      (by decide) (by decide) (by decide)
  · exact (c5_graph_score ⟨[], [("d", "g")]⟩ "d" "x").2.2 (by decide)

/-- C9: the graph-centrality computation is a total function that returns 0
when either node is absent and 0 when no path exists (the code's `except`
arm); in the embedding no exception is possible, and each drug's score is
computed independently, so one drug's degraded score cannot abort the
others. -/
theorem c9_graph_score_safe (G : KGraph) (dname did : String) :
    ((G.hasNode dname = false ∨ G.hasNode did = false) →
      compute_graph_score G dname did = 0) ∧
    (G.spl dname did = none → compute_graph_score G dname did = 0) := by
  constructor
  · intro h
    rcases h with h | h <;>
      · simp only [compute_graph_score, h]
        rw [if_pos (by simp)]
  · intro hspl
    by_cases h1 : G.hasNode dname = true
    · by_cases h2 : G.hasNode did = true
      · simp only [compute_graph_score, h1, h2, hspl, Bool.not_true, Bool.or_self,
          Bool.false_eq_true, if_false]
      · have hf : G.hasNode did = false := by simpa using h2
        simp only [compute_graph_score]
        rw [if_pos (by simp [hf])]
    · have hf : G.hasNode dname = false := by simpa using h1
      simp only [compute_graph_score]
      rw [if_pos (by simp [hf])]

/-- Witness for C9: unreachable and absent-node cases both score 0. -/
theorem c9_witness :
    compute_graph_score ⟨["d", "x"], []⟩ "d" "x" = 0 ∧
    compute_graph_score ⟨[], []⟩ "d" "x" = 0 := by
  constructor
  · exact (c9_graph_score_safe ⟨["d", "x"], []⟩ "d" "x").2 (by decide)
  · exact (c9_graph_score_safe ⟨[], []⟩ "d" "x").1 (Or.inl (by decide))

end DrugProj

namespace DrugProj

/-- Every candidate returned by `score_candidates` passed the final
threshold and was built by `mkCandidate` from a drug of the database. -/
theorem score_candidates_mem {db : List DrugRec} {disease : DiseaseRec} {G : KGraph}
    {top_k : Nat} {min_score : ℚ} {c : DrugCandidate}
    (hc : c ∈ score_candidates db disease G top_k min_score) :
    min_score ≤ c.composite_score ∧ ∃ drug ∈ db, c = mkCandidate disease G drug := by
  simp only [score_candidates] at hc
  have hc1 := List.take_subset _ _ hc
  rw [List.mem_filter] at hc1
  obtain ⟨hc2, hpred⟩ := hc1
  refine ⟨by simpa using hpred, ?_⟩
  rw [List.mem_insertionSort] at hc2
  rw [List.mem_filterMap] at hc2
  obtain ⟨drug, hdrug, hmk⟩ := hc2
  unfold keepDrug at hmk
  split at hmk
  · simp at hmk
  · exact ⟨drug, hdrug, by simpa using hmk.symm⟩

/-- The output of `score_candidates` is sorted non-increasing on the stored
composite score. -/
theorem score_candidates_sorted (db : List DrugRec) (disease : DiseaseRec)
    (G : KGraph) (top_k : Nat) (min_score : ℚ) :
    List.Sorted byScore (score_candidates db disease G top_k min_score) := by
  simp only [score_candidates]
  apply List.Pairwise.sublist (List.take_sublist _ _)
  apply List.Pairwise.sublist (List.filter_sublist _)
  exact List.sorted_insertionSort byScore _

/-- The output of `score_candidates` has at most `top_k` entries. -/
theorem score_candidates_length (db : List DrugRec) (disease : DiseaseRec)
    (G : KGraph) (top_k : Nat) (min_score : ℚ) :
    (score_candidates db disease G top_k min_score).length ≤ top_k := by
  simp only [score_candidates]
  exact List.length_take_le _ _

end DrugProj

namespace DrugProj

/-- Evaluation rule for `pyRoundInt` when the fractional part exceeds one
half. -/
theorem pyRoundInt_eval_up {x : ℚ} {f : ℤ} (hfl : ⌊x⌋ = f) (hr : 1/2 < x - f) :
    pyRoundInt x = f + 1 := by
  simp only [pyRoundInt, hfl]
  rw [if_neg (by linarith), if_pos hr]

/-- A disease record with nine genes and nineteen pathways, used to land
the un-rounded composite score just below the Medium threshold. -/
def exDisease : DiseaseRec :=
  { name := "parkinson"
    genes := ["g1", "g2", "g3", "g4", "g5", "g6", "g7", "g8", "g9"]
    pathways := ["p01", "p02", "p03", "p04", "p05", "p06", "p07", "p08", "p09", "p10",
                 "p11", "p12", "p13", "p14", "p15", "p16", "p17", "p18", "p19"] }

/-- A drug sharing one gene and seven pathways with `exDisease`; its id has
literature prior 0.5 for "parkinson". -/
def exDrug : DrugRec :=
  { id := "DB00619", name := "Imatinib", indication := "Chronic myeloid leukemia"
    mechanism := "Tyrosine kinase inhibitor", smiles := ""
    targets := ["g1"]
    pathways := ["p01", "p02", "p03", "p04", "p05", "p06", "p07"] }

/-- A graph joining the disease node directly to the drug node (path
length 1, centrality 1.0). -/
def exGraph : KGraph := { nodes := [], edges := [("parkinson", "DB00619")] }

/-- Exact evaluation of the scorer on the example: the un-rounded composite
is 13679/34200 ≈ 0.39997 (just below 0.40), the stored rounded composite is
exactly 0.4, the tier computed from the un-rounded value is "Low", and the
candidate is the sole output. -/
theorem exScore_eval :
    compositeScore exDisease exGraph exDrug = 13679/34200 ∧
    (mkCandidate exDisease exGraph exDrug).composite_score = 2/5 ∧
    (mkCandidate exDisease exGraph exDrug).confidence = "Low" ∧
    score_candidates [exDrug] exDisease exGraph 10 (3/10)
      = [mkCandidate exDisease exGraph exDrug] := by
  have hg : geneTargetScore exDisease exDrug = 1/9 := by
    have h1 : (sharedGenes exDisease exDrug).length = 1 := by decide
    have h2 : exDisease.genes.dedup.length = 9 := by decide
    simp only [geneTargetScore, h1, h2]
    norm_num
  have hp : pathwayOverlapScore exDisease exDrug = 49/95 := by
    have h1 : (sharedPathways exDisease exDrug).length = 7 := by decide
    have h2 : (exDisease.pathways ++ exDrug.pathways).dedup.length = 19 := by decide
    simp only [pathwayOverlapScore, h1, h2]
    norm_num
  have hcgs : compute_graph_score exGraph exDisease.name exDrug.id = 1 := by
    show compute_graph_score exGraph "parkinson" "DB00619" = 1
    have h1 : KGraph.spl exGraph "parkinson" "DB00619" = some 1 := by decide
    have h2 : KGraph.hasNode exGraph "parkinson" = true := by decide
    have h3 : KGraph.hasNode exGraph "DB00619" = true := by decide
    simp only [compute_graph_score, h1, h2, h3, Bool.not_true, Bool.or_self,
      Bool.false_eq_true, if_false]
    have hmax : (max 0 (1 - ((1 : Nat) - 1 : ℚ) * (2/10))) = 1 := by norm_num
    rw [hmax]
    exact pyRound4_eq_self (n := 10000) (by norm_num)
  have hl : compute_literature_score exDrug.id (pyLower exDisease.name) = 5/10 := by
    show compute_literature_score "DB00619" (pyLower "parkinson") = 5/10
    have hlow : pyLower "parkinson" = "parkinson" := by decide
    rw [hlow]
    simp only [compute_literature_score, KNOWN_REPURPOSING, List.foldl, String.reduceBEq,
      (by decide : strIn "parkinson" "parkinson" = true),
      Bool.true_and, Bool.false_and, Bool.and_true, Bool.and_false,
      Bool.false_eq_true, if_true, if_false, ite_true, ite_false]
    norm_num
  have hcomp : compositeScore exDisease exGraph exDrug = 13679/34200 := by
    rw [compositeScore, hg, hp, hcgs, hl, W_gene_target, W_pathway_overlap,
      W_graph_centrality, W_literature]
    norm_num
  have hf : (⌊(13679 : ℚ)/34200 * 10000⌋ : ℤ) = 3999 := by
    rw [Int.floor_eq_iff]
    norm_num
  have hri : pyRoundInt ((13679 : ℚ)/34200 * 10000) = 4000 := by
    have h4 : ((3999 : ℤ) : ℚ) + 1 = 4000 := by norm_num
    have := pyRoundInt_eval_up (x := (13679 : ℚ)/34200 * 10000) (f := 3999) hf
      (by push_cast; norm_num)
    rw [this]
    norm_num
  have hround : pyRound4 ((13679 : ℚ)/34200) = 2/5 := by
    unfold pyRound4
    rw [hri]
    norm_num
  have hms : (mkCandidate exDisease exGraph exDrug).composite_score = 2/5 := by
    show pyRound4 (compositeScore exDisease exGraph exDrug) = 2/5
    rw [hcomp, hround]
  have hconf : (mkCandidate exDisease exGraph exDrug).confidence = "Low" := by
    show confidenceOf (compositeScore exDisease exGraph exDrug) = "Low"
    rw [hcomp]
    unfold confidenceOf
    rw [if_neg (show ¬((65 : ℚ)/100 ≤ 13679/34200) by norm_num),
        if_neg (show ¬((40 : ℚ)/100 ≤ 13679/34200) by norm_num)]
  refine ⟨hcomp, hms, hconf, ?_⟩
  have hkeep : keepDrug exDisease exGraph (3/10) exDrug
      = some (mkCandidate exDisease exGraph exDrug) := by
    unfold keepDrug
    rw [if_neg ?hcnd]
    case hcnd =>
      have hne : (sharedGenes exDisease exDrug).isEmpty = false := by decide
      simp [hne]
  have hflt : (decide ((3 : ℚ)/10 ≤ (mkCandidate exDisease exGraph exDrug).composite_score))
      = true := decide_eq_true (by rw [hms]; norm_num)
  simp only [score_candidates, List.filterMap_cons, hkeep, List.filterMap_nil,
    List.insertionSort, List.orderedInsert, List.filter_cons, hflt, if_true,
    List.filter_nil, List.take]

end DrugProj

namespace DrugProj

/-- C7 counterexample: on a reachable input the produced candidate's stored
composite score is exactly 0.4000 (so by the claim its tier should be
Medium, since 0.40 ≤ composite < 0.65), yet the code assigns tier "Low"
because it computes the tier from the un-rounded weighted sum
13679/34200 ≈ 0.39997. -/
theorem c7_counterexample :
    mkCandidate exDisease exGraph exDrug
      ∈ score_candidates [exDrug] exDisease exGraph 10 (3/10) ∧
    (mkCandidate exDisease exGraph exDrug).composite_score = 2/5 ∧
    ((40 : ℚ)/100 ≤ 2/5 ∧ (2/5 : ℚ) < 65/100) ∧
    (mkCandidate exDisease exGraph exDrug).confidence ≠ "Medium" ∧
    (mkCandidate exDisease exGraph exDrug).confidence = "Low" := by
  obtain ⟨hcomp, hms, hconf, hout⟩ := exScore_eval
  refine ⟨?_, hms, by norm_num, ?_, hconf⟩
  · rw [hout]
    exact List.mem_singleton.mpr rfl
  · rw [hconf]
    decide

/-- C7 (amended): every candidate returned by `score_candidates` stores as
`composite_score` the 4-decimal rounding of the weighted sum
`0.40·gene + 0.35·pathway + 0.10·graph + 0.15·literature`, while its
confidence tier is computed from the *un-rounded* weighted sum: High when
it is ≥ 0.65, Medium when ≥ 0.40, Low otherwise (so a candidate whose
rounded score displays 0.40 can carry tier Low). -/
theorem c7_composite_confidence (db : List DrugRec) (disease : DiseaseRec)
    (G : KGraph) (top_k : Nat) (min_score : ℚ) (c : DrugCandidate)
    (hc : c ∈ score_candidates db disease G top_k min_score) :
    ∃ drug ∈ db,
      c.composite_score = pyRound4 ((40/100) * geneTargetScore disease drug
        + (35/100) * pathwayOverlapScore disease drug
        + (10/100) * compute_graph_score G disease.name drug.id
        + (15/100) * compute_literature_score drug.id (pyLower disease.name)) ∧
      c.confidence =
        (if (65 : ℚ)/100 ≤ (40/100) * geneTargetScore disease drug
            + (35/100) * pathwayOverlapScore disease drug
            + (10/100) * compute_graph_score G disease.name drug.id
            + (15/100) * compute_literature_score drug.id (pyLower disease.name)
         then "High"
         else if (40 : ℚ)/100 ≤ (40/100) * geneTargetScore disease drug
            + (35/100) * pathwayOverlapScore disease drug
            + (10/100) * compute_graph_score G disease.name drug.id
            + (15/100) * compute_literature_score drug.id (pyLower disease.name)
         then "Medium" else "Low") := by
  obtain ⟨-, drug, hdrug, rfl⟩ := score_candidates_mem hc
  exact ⟨drug, hdrug, rfl, rfl⟩

/-- Witness for C7 (amended) on the concrete example candidate. -/
theorem c7_witness :
    ∃ drug ∈ [exDrug],
      (mkCandidate exDisease exGraph exDrug).composite_score
        = pyRound4 ((40/100) * geneTargetScore exDisease drug
          + (35/100) * pathwayOverlapScore exDisease drug
          + (10/100) * compute_graph_score exGraph exDisease.name drug.id
          + (15/100) * compute_literature_score drug.id (pyLower exDisease.name)) ∧
      (mkCandidate exDisease exGraph exDrug).confidence =
        (if (65 : ℚ)/100 ≤ (40/100) * geneTargetScore exDisease drug
            + (35/100) * pathwayOverlapScore exDisease drug
            + (10/100) * compute_graph_score exGraph exDisease.name drug.id
            + (15/100) * compute_literature_score drug.id (pyLower exDisease.name)
         then "High"
         else if (40 : ℚ)/100 ≤ (40/100) * geneTargetScore exDisease drug
            + (35/100) * pathwayOverlapScore exDisease drug
            + (10/100) * compute_graph_score exGraph exDisease.name drug.id
            + (15/100) * compute_literature_score drug.id (pyLower exDisease.name)
         then "Medium" else "Low") :=
  c7_composite_confidence [exDrug] exDisease exGraph 10 (3/10)
    (mkCandidate exDisease exGraph exDrug)
    (by rw [exScore_eval.2.2.2]; exact List.mem_singleton.mpr rfl)

end DrugProj

namespace DrugProj

/-- C10: every candidate returned by `score_candidates` has stored composite
score ≥ `min_score` (the final threshold pass removes all lower-scoring
candidates, including those with shared genes or pathways), and the output
is sorted non-increasing by stored composite score with at most `top_k`
entries. -/
theorem c10_output_invariants (db : List DrugRec) (disease : DiseaseRec)
    (G : KGraph) (top_k : Nat) (min_score : ℚ) :
    (∀ c ∈ score_candidates db disease G top_k min_score,
      min_score ≤ c.composite_score) ∧
    List.Sorted byScore (score_candidates db disease G top_k min_score) ∧
    (score_candidates db disease G top_k min_score).length ≤ top_k ∧
    (∀ drug ∈ db, pyRound4 (compositeScore disease G drug) < min_score →
      mkCandidate disease G drug ∉ score_candidates db disease G top_k min_score) := by
  refine ⟨fun c hc => (score_candidates_mem hc).1,
    score_candidates_sorted db disease G top_k min_score,
    score_candidates_length db disease G top_k min_score, ?_⟩
  intro drug _ hlow hmem
  have hge := (score_candidates_mem hmem).1
  have : (mkCandidate disease G drug).composite_score
      = pyRound4 (compositeScore disease G drug) := rfl
  rw [this] at hge
  linarith

/-- Witness for C10 on the concrete example. -/
theorem c10_witness :
    (3 : ℚ)/10 ≤ (mkCandidate exDisease exGraph exDrug).composite_score ∧
    List.Sorted byScore (score_candidates [exDrug] exDisease exGraph 10 (3/10)) ∧
    (score_candidates [exDrug] exDisease exGraph 10 (3/10)).length ≤ 10 := by
  have h := c10_output_invariants [exDrug] exDisease exGraph 10 (3/10)
  refine ⟨h.1 _ ?_, h.2.1, h.2.2.1⟩
  rw [exScore_eval.2.2.2]
  exact List.mem_singleton.mpr rfl

/-- A disease with ten genes, one of which is the sole target of the
low-scoring drug below: gene overlap exists but the composite score is only
0.04. -/
def lowDisease : DiseaseRec :=
  { name := "x"
    genes := ["G1", "G2", "G3", "G4", "G5", "G6", "G7", "G8", "G9", "G10"]
    pathways := [] }

/-- A drug sharing exactly one gene with `lowDisease` and nothing else. -/
def lowDrug : DrugRec :=
  { id := "D1", name := "LowScorer", indication := "", mechanism := "", smiles := ""
    targets := ["G1"], pathways := [] }

/-- The empty graph. -/
def lowGraph : KGraph := { nodes := [], edges := [] }

/-- C2 counterexample: `lowDrug` shares a gene with `lowDisease`, so by the
claim it must be in the output; but its composite score 0.04 is below
`min_score = 0.3` and the final threshold pass of `score_candidates`
removes it, leaving the output empty. -/
theorem c2_counterexample :
    sharedGenes lowDisease lowDrug ≠ [] ∧
    compositeScore lowDisease lowGraph lowDrug = 1/25 ∧
    (1 : ℚ)/25 < 3/10 ∧
    score_candidates [lowDrug] lowDisease lowGraph 10 (3/10) = [] := by
  have hg : geneTargetScore lowDisease lowDrug = 1/10 := by
    have h1 : (sharedGenes lowDisease lowDrug).length = 1 := by decide
    have h2 : lowDisease.genes.dedup.length = 10 := by decide
    simp only [geneTargetScore, h1, h2]
    norm_num
  have hp : pathwayOverlapScore lowDisease lowDrug = 0 := by
    have h2 : (lowDisease.pathways ++ lowDrug.pathways).dedup.length = 0 := by decide
    simp only [pathwayOverlapScore, h2]
    norm_num
  have hcgs : compute_graph_score lowGraph lowDisease.name lowDrug.id = 0 := by
    show compute_graph_score lowGraph "x" "D1" = 0
    have h1 : KGraph.hasNode lowGraph "x" = false := by decide
    simp only [compute_graph_score]
    rw [if_pos (by simp [h1])]
  have hl : compute_literature_score lowDrug.id (pyLower lowDisease.name) = 0 := by
    show compute_literature_score "D1" (pyLower "x") = 0
    simp only [compute_literature_score, KNOWN_REPURPOSING, List.foldl, String.reduceBEq,
      Bool.false_and, Bool.false_eq_true, if_false, ite_false]
  have hcomp : compositeScore lowDisease lowGraph lowDrug = 1/25 := by
    rw [compositeScore, hg, hp, hcgs, hl, W_gene_target, W_pathway_overlap,
      W_graph_centrality, W_literature]
    norm_num
  have hround : pyRound4 ((1 : ℚ)/25) = 1/25 :=
    pyRound4_eq_self (n := 400) (by norm_num)
  refine ⟨by decide, hcomp, by norm_num, ?_⟩
  have hkeep : keepDrug lowDisease lowGraph (3/10) lowDrug
      = some (mkCandidate lowDisease lowGraph lowDrug) := by
    unfold keepDrug
    rw [if_neg ?hcnd]
    case hcnd =>
      have hne : (sharedGenes lowDisease lowDrug).isEmpty = false := by decide
      simp [hne]
  have hms : (mkCandidate lowDisease lowGraph lowDrug).composite_score = 1/25 := by
    show pyRound4 (compositeScore lowDisease lowGraph lowDrug) = 1/25
    rw [hcomp, hround]
  have hflt : (decide ((3 : ℚ)/10 ≤ (mkCandidate lowDisease lowGraph lowDrug).composite_score))
      = false := by
    rw [decide_eq_false_iff_not, hms]
    norm_num
  simp only [score_candidates, List.filterMap_cons, hkeep, List.filterMap_nil,
    List.insertionSort, List.orderedInsert, List.filter_cons, hflt,
    Bool.false_eq_true, if_false, List.filter_nil, List.take_nil]

/-- C2 (amended): the list returned by `score_candidates` contains *only*
candidates built from database drugs whose stored composite score is
≥ `min_score` — the final threshold pass removes every lower-scoring
candidate even when it has a shared gene or shared pathway, so overlap
alone does not suffice for inclusion. -/
theorem c2_threshold (db : List DrugRec) (disease : DiseaseRec) (G : KGraph)
    (top_k : Nat) (min_score : ℚ) :
    (∀ c ∈ score_candidates db disease G top_k min_score,
      min_score ≤ c.composite_score ∧ ∃ drug ∈ db, c = mkCandidate disease G drug) ∧
    (∀ drug ∈ db, pyRound4 (compositeScore disease G drug) < min_score →
      ∀ c ∈ score_candidates db disease G top_k min_score,
        c ≠ mkCandidate disease G drug) := by
  refine ⟨fun c hc => score_candidates_mem hc, ?_⟩
  intro drug _ hlow c hc hch
  have hge := (score_candidates_mem hc).1
  rw [hch] at hge
  have : (mkCandidate disease G drug).composite_score
      = pyRound4 (compositeScore disease G drug) := rfl
  rw [this] at hge
  linarith

/-- Witness for C2 (amended) on the concrete example. -/
theorem c2_witness :
    (3 : ℚ)/10 ≤ (mkCandidate exDisease exGraph exDrug).composite_score ∧
    ∃ drug ∈ [exDrug], mkCandidate exDisease exGraph exDrug
      = mkCandidate exDisease exGraph drug := by
  have h := (c2_threshold [exDrug] exDisease exGraph 10 (3/10)).1
    (mkCandidate exDisease exGraph exDrug)
    (by rw [exScore_eval.2.2.2]; exact List.mem_singleton.mpr rfl)
  exact h

end DrugProj
